/-
Verification of the pktparse packet-header decoding library.

The Rust source decodes fixed-format network protocol headers from raw byte
buffers using nom-style streaming parsers.  We embed the byte-level decoders
shallowly: a buffer is a `List Nat` of byte values, and a decoder is a function
from a buffer to a `PResult`, mirroring nom's
`IResult = Result<(rest, value), Err>` where `Err` is one of
`Incomplete(Needed)`, `Error`, or `Failure`.  Each Lean definition below
transcribes the corresponding Rust function (file and function named in its
doc comment), preserving the sequential reads, the branch structure, and the
distinction between the "need more bytes" and "malformed" outcomes.
-/
import Mathlib

namespace PktSpec

/-- Result of running a decoder, mirroring nom's `IResult`:
`ok rest value`, `incomplete n` (nom `Err::Incomplete(Needed::Size n)`),
`error` (nom `Err::Error`), `failure` (nom `Err::Failure`). -/
inductive PResult (α : Type) where
  | ok : List Nat → α → PResult α
  | incomplete : Nat → PResult α
  | error : PResult α
  | failure : PResult α
deriving DecidableEq

/-- A decoder consumes a prefix of a byte buffer. -/
def Decoder (α : Type) : Type := List Nat → PResult α

/-- Trivial decoder that consumes nothing (building the final record in a
Rust `Ok((input, value))`). -/
def ppure {α : Type} (a : α) : Decoder α := fun i => .ok i a

/-- Sequencing of decoders, mirroring Rust's `?` on nom results: errors and
incomplete-input signals propagate unchanged. -/
def pbind {α β : Type} (p : Decoder α) (f : α → Decoder β) : Decoder β := fun i =>
  match p i with
  | .ok r a => f a r
  | .incomplete n => .incomplete n
  | .error => .error
  | .failure => .failure

/-- nom's `map_opt!`: apply a partial function to the decoded value,
turning `none` into `Err::Error`. -/
def pmap_opt {α β : Type} (p : Decoder α) (f : α → Option β) : Decoder β := fun i =>
  match p i with
  | .ok r a =>
    match f a with
    | some b => .ok r b
    | none => .error
  | .incomplete n => .incomplete n
  | .error => .error
  | .failure => .failure

/-- One-byte reader shape (used by `be_u8` and the single-byte bit readers).
`need` is the byte count reported when the input is empty. -/
def read1 {α : Type} (f : Nat → α) (need : Nat) : Decoder α := fun i =>
  match i with
  | b :: r => .ok r (f b)
  | [] => .incomplete need

/-- Two-byte reader shape (used by `be_u16` and the two-byte bit readers).
`miss` computes the reported byte count from the available length. -/
def read2 {α : Type} (f : Nat → Nat → α) (miss : Nat → Nat) : Decoder α := fun i =>
  match i with
  | b0 :: b1 :: r => .ok r (f b0 b1)
  | other => .incomplete (miss other.length)

/-- nom `number::streaming::be_u8`. -/
def be_u8 : Decoder Nat := read1 id 1

/-- nom `number::streaming::be_u16` (big-endian; shortfall reported). -/
def be_u16 : Decoder Nat := read2 (fun b0 b1 => 256 * b0 + b1) (fun l => 2 - l)

/-- nom `number::streaming::be_u32` (big-endian; shortfall reported). -/
def be_u32 : Decoder Nat := fun i =>
  match i with
  | b0 :: b1 :: b2 :: b3 :: r =>
    .ok r (16777216 * b0 + 65536 * b1 + 256 * b2 + b3)
  | other => .incomplete (4 - other.length)

/-- nom `bytes::streaming::take(k)`: k raw bytes (shortfall reported). -/
def takeP (k : Nat) : Decoder (List Nat) := fun i =>
  if k ≤ i.length then .ok (i.drop k) (i.take k) else .incomplete (k - i.length)

/-- Bit reader splitting one byte into its two nibbles, high first
(`two_nibbles` in `src/ip.rs`, and the identically-shaped `two_nibbles`
in `src/ipv4.rs`). -/
def two_nibbles : Decoder (Nat × Nat) := read1 (fun b => (b / 16, b % 16)) 1

/-- Bit reader for IPv4's 3-bit flags and 13-bit fragment offset packed in
two bytes (`flag_frag_offset` in `src/ipv4.rs`). -/
def flag_frag_offset : Decoder (Nat × Nat) :=
  read2 (fun b0 b1 => ((256 * b0 + b1) / 8192, (256 * b0 + b1) % 8192)) (fun _ => 1)

/-- Bit reader for TCP's 4-bit data offset, 6 reserved bits and 6 flag bits
packed in two bytes (`dataof_res_flags` in `src/tcp.rs`). -/
def dataof_res_flags : Decoder (Nat × Nat × Nat) :=
  read2 (fun b0 b1 =>
      ((256 * b0 + b1) / 4096, ((256 * b0 + b1) / 64) % 64, (256 * b0 + b1) % 64))
    (fun _ => 1)

/-- Bit reader for 16 bits as a word (the flow-label tail read in
`src/ipv6.rs`, `bits::streaming::take(16u8)` under `bits::bits`). -/
def take16bits : Decoder Nat := read2 (fun b0 b1 => 256 * b0 + b1) (fun _ => 3)

/-! ## Ethernet (`src/ethernet.rs`) -/

/-- 6 raw bytes of a MAC address. -/
structure MacAddress where
  bytes : List Nat
deriving DecidableEq

/-- `EtherType` tagged union (`src/ethernet.rs`). -/
inductive EtherType where
  | LANMIN | LANMAX | IPv4 | ARP | WOL | TRILL | DECnet | RARP
  | AppleTalk | AARP | VLAN | IPX | Qnet | IPv6 | FlowControl | CobraNet
  | MPLSuni | MPLSmulti | PPPoEdiscovery | PPPoEsession | HomePlug | EAPOL
  | PROFINET | HyperSCSI | ATAOE | EtherCAT | QinQ | Powerlink | GOOSE
  | GSE | LLDP | SERCOS | HomePlugAV | MRP | MACsec | PBB | PTP | PRP
  | CFM | FCoE | FCoEi | RoCE | TTE | HSR | CTP | VLANdouble
  | Other (raw : Nat)
deriving DecidableEq

/-- `impl From<u16> for EtherType` (`src/ethernet.rs`). -/
def EtherType.ofRaw (raw : Nat) : EtherType :=
  match raw with
  | 0x002E => .LANMIN
  | 0x05DC => .LANMAX
  | 0x0800 => .IPv4
  | 0x0806 => .ARP
  | 0x0842 => .WOL
  | 0x22F3 => .TRILL
  | 0x6003 => .DECnet
  | 0x8035 => .RARP
  | 0x809B => .AppleTalk
  | 0x80F3 => .AARP
  | 0x8100 => .VLAN
  | 0x8137 => .IPX
  | 0x8204 => .Qnet
  | 0x86DD => .IPv6
  | 0x8808 => .FlowControl
  | 0x8819 => .CobraNet
  | 0x8847 => .MPLSuni
  | 0x8848 => .MPLSmulti
  | 0x8863 => .PPPoEdiscovery
  | 0x8864 => .PPPoEsession
  | 0x887B => .HomePlug
  | 0x888E => .EAPOL
  | 0x8892 => .PROFINET
  | 0x889A => .HyperSCSI
  | 0x88A2 => .ATAOE
  | 0x88A4 => .EtherCAT
  | 0x88A8 => .QinQ
  | 0x88AB => .Powerlink
  | 0x88B8 => .GOOSE
  | 0x88B9 => .GSE
  | 0x88CC => .LLDP
  | 0x88CD => .SERCOS
  | 0x88E1 => .HomePlugAV
  | 0x88E3 => .MRP
  | 0x88E5 => .MACsec
  | 0x88E7 => .PBB
  | 0x88F7 => .PTP
  | 0x88FB => .PRP
  | 0x8902 => .CFM
  | 0x8906 => .FCoE
  | 0x8914 => .FCoEi
  | 0x8915 => .RoCE
  | 0x891D => .TTE
  | 0x892F => .HSR
  | 0x9000 => .CTP
  | 0x9100 => .VLANdouble
  | other => .Other other

/-- `EthernetFrame` record (`src/ethernet.rs`). -/
structure EthernetFrame where
  source_mac : MacAddress
  dest_mac : MacAddress
  ethertype : EtherType
deriving DecidableEq

/-- `VlanEthernetFrame` record (`src/ethernet.rs`). -/
structure VlanEthernetFrame where
  source_mac : MacAddress
  dest_mac : MacAddress
  ethertype : EtherType
  vid : Option Nat
deriving DecidableEq

/-- `VidEthertype` helper record (`src/ethernet.rs`). -/
structure VidEthertype where
  vid : Nat
  ethertype : EtherType
deriving DecidableEq

/-- `mac_address` (`src/ethernet.rs`): 6 raw bytes. -/
def mac_address : Decoder MacAddress :=
  pbind (takeP 6) fun bs => ppure ⟨bs⟩

/-- `parse_ethertype` (`src/ethernet.rs`). -/
def parse_ethertype : Decoder EtherType :=
  pbind be_u16 fun e => ppure (EtherType.ofRaw e)

/-- `vid_ethertype` (`src/ethernet.rs`). -/
def vid_ethertype : Decoder VidEthertype :=
  pbind be_u16 fun vid =>
  pbind parse_ethertype fun ethertype =>
  ppure ⟨vid, ethertype⟩

/-- `vlan_ethernet_frame` (`src/ethernet.rs`): VLAN-aware fixed part, `vid`
initially `none`. -/
def vlan_ethernet_frame : Decoder VlanEthernetFrame :=
  pbind mac_address fun dest_mac =>
  pbind mac_address fun source_mac =>
  pbind parse_ethertype fun ethertype =>
  ppure ⟨source_mac, dest_mac, ethertype, none⟩

/-- `parse_ethernet_frame` (`src/ethernet.rs`). -/
def parse_ethernet_frame : Decoder EthernetFrame :=
  pbind mac_address fun dest_mac =>
  pbind mac_address fun source_mac =>
  pbind parse_ethertype fun ethertype =>
  ppure ⟨source_mac, dest_mac, ethertype⟩

/-- `parse_vlan_ethernet_frame` (`src/ethernet.rs`): one level of 802.1Q
unwrapping when the first ethertype is the VLAN marker. -/
def parse_vlan_ethernet_frame : Decoder VlanEthernetFrame :=
  pbind vlan_ethernet_frame fun frame =>
    if frame.ethertype = EtherType.VLAN then
      pbind vid_ethertype fun vid_et =>
        ppure { frame with vid := some vid_et.vid, ethertype := vid_et.ethertype }
    else
      ppure frame

/-! ## IPv4 (`src/ipv4.rs`) -/

/-- IPv4 address: 4 raw bytes (Rust `std::net::Ipv4Addr`). -/
structure Ipv4Addr where
  a : Nat
  b : Nat
  c : Nat
  d : Nat
deriving DecidableEq

/-- `IPv4Protocol` tagged union (`src/ipv4.rs`). -/
inductive IPv4Protocol where
  | HOPOPT | ICMP | IGMP | GGP | IPINIP | ST | TCP | CBT | EGP | IGP
  | BBNRCCMON | NVPII | PUP | ARGUS | EMCON | XNET | CHAOS | UDP | IPV6
  | Other (raw : Nat)
deriving DecidableEq

/-- `to_ipv4_protocol` (`src/ipv4.rs`); note every arm returns `Some`. -/
def to_ipv4_protocol (i : Nat) : Option IPv4Protocol :=
  match i with
  | 0 => some .HOPOPT
  | 1 => some .ICMP
  | 2 => some .IGMP
  | 3 => some .GGP
  | 4 => some .IPINIP
  | 5 => some .ST
  | 6 => some .TCP
  | 7 => some .CBT
  | 8 => some .EGP
  | 9 => some .IGP
  | 10 => some .BBNRCCMON
  | 11 => some .NVPII
  | 12 => some .PUP
  | 13 => some .ARGUS
  | 14 => some .EMCON
  | 15 => some .XNET
  | 16 => some .CHAOS
  | 17 => some .UDP
  | 41 => some .IPV6
  | other => some (.Other other)

/-- `to_ipv4_address` (`src/ipv4.rs`): an `Ipv4Addr` from 4 bytes. -/
def to_ipv4_address (l : List Nat) : Ipv4Addr :=
  ⟨l.getD 0 0, l.getD 1 0, l.getD 2 0, l.getD 3 0⟩

/-- `protocol` parser (`src/ipv4.rs`): `map_opt!(be_u8, to_ipv4_protocol)`. -/
def ipv4_protocol : Decoder IPv4Protocol := pmap_opt be_u8 to_ipv4_protocol

/-- `address` parser (`src/ipv4.rs`): `map!(take!(4), to_ipv4_address)`. -/
def ipv4_address : Decoder Ipv4Addr :=
  pbind (takeP 4) fun bs => ppure (to_ipv4_address bs)

/-- `IPv4Header` record (`src/ipv4.rs`). -/
structure IPv4Header where
  version : Nat
  ihl : Nat
  tos : Nat
  length : Nat
  id : Nat
  flags : Nat
  fragment_offset : Nat
  ttl : Nat
  protocol : IPv4Protocol
  chksum : Nat
  source_addr : Ipv4Addr
  dest_addr : Ipv4Addr
deriving DecidableEq

/-- `ipparse` (`src/ipv4.rs`).  Note the source stores `ihl: verihl.1 << 2`,
i.e. the low nibble shifted left by two (quadrupled), not the raw nibble. -/
def ipparse : Decoder IPv4Header :=
  pbind two_nibbles fun verihl =>
  pbind be_u8 fun tos =>
  pbind be_u16 fun length =>
  pbind be_u16 fun id =>
  pbind flag_frag_offset fun flagfragoffset =>
  pbind be_u8 fun ttl =>
  pbind ipv4_protocol fun proto =>
  pbind be_u16 fun chksum =>
  pbind ipv4_address fun src_addr =>
  pbind ipv4_address fun dst_addr =>
  ppure { version := verihl.1, ihl := verihl.2 <<< 2, tos := tos,
          length := length, id := id, flags := flagfragoffset.1,
          fragment_offset := flagfragoffset.2, ttl := ttl, protocol := proto,
          chksum := chksum, source_addr := src_addr, dest_addr := dst_addr }

/-- `parse_ipv4_header` (`src/ipv4.rs`). -/
def parse_ipv4_header : Decoder IPv4Header := ipparse

/-! ## IP protocol numbers (`src/ip.rs`) -/

/-- `IPProtocol` tagged union (`src/ip.rs`; the newer revision, with ICMP6). -/
inductive IPProtocol where
  | HOPOPT | ICMP | IGMP | GGP | IPINIP | ST | TCP | CBT | EGP | IGP
  | BBNRCCMON | NVPII | PUP | ARGUS | EMCON | XNET | CHAOS | UDP | IPV6
  | ICMP6
  | Other (raw : Nat)
deriving DecidableEq

/-- `impl From<u8> for IPProtocol` (`src/ip.rs`). -/
def IPProtocol.ofRaw (raw : Nat) : IPProtocol :=
  match raw with
  | 0 => .HOPOPT
  | 1 => .ICMP
  | 2 => .IGMP
  | 3 => .GGP
  | 4 => .IPINIP
  | 5 => .ST
  | 6 => .TCP
  | 7 => .CBT
  | 8 => .EGP
  | 9 => .IGP
  | 10 => .BBNRCCMON
  | 11 => .NVPII
  | 12 => .PUP
  | 13 => .ARGUS
  | 14 => .EMCON
  | 15 => .XNET
  | 16 => .CHAOS
  | 17 => .UDP
  | 41 => .IPV6
  | 58 => .ICMP6
  | other => .Other other

/-- `protocol` parser (`src/ip.rs`). -/
def ip_protocol : Decoder IPProtocol :=
  pbind be_u8 fun b => ppure (IPProtocol.ofRaw b)

/-! ## IPv6 (`src/ipv6.rs`) -/

/-- IPv6 address: 16 raw bytes (Rust `std::net::Ipv6Addr`). -/
structure Ipv6Addr where
  bytes : List Nat
deriving DecidableEq

/-- `address` parser (`src/ipv6.rs`): 16 raw bytes. -/
def ipv6_address : Decoder Ipv6Addr :=
  pbind (takeP 16) fun bs => ppure ⟨bs⟩

/-- `IPv6Header` record (`src/ipv6.rs`). -/
structure IPv6Header where
  version : Nat
  ds : Nat
  ecn : Nat
  flow_label : Nat
  length : Nat
  next_header : IPProtocol
  hop_limit : Nat
  source_addr : Ipv6Addr
  dest_addr : Ipv6Addr
deriving DecidableEq

/-- `parse_ipv6_header` (`src/ipv6.rs`), with the cross-byte reassembly of
ds / ecn / flow label exactly as in the source. -/
def parse_ipv6_header : Decoder IPv6Header :=
  pbind two_nibbles fun ver_tc =>
  pbind two_nibbles fun tc_fl =>
  pbind take16bits fun fl =>
  pbind be_u16 fun length =>
  pbind ip_protocol fun next_header =>
  pbind be_u8 fun hop_limit =>
  pbind ipv6_address fun source_addr =>
  pbind ipv6_address fun dest_addr =>
  ppure { version := ver_tc.1,
          ds := (ver_tc.2 <<< 2) + ((tc_fl.1 &&& 12) >>> 2),
          ecn := tc_fl.1 &&& 3,
          flow_label := (tc_fl.2 <<< 16) + fl,
          length := length, next_header := next_header,
          hop_limit := hop_limit,
          source_addr := source_addr, dest_addr := dest_addr }

/-! ## ARP (`src/arp.rs`) -/

/-- `HardwareAddressType` (`src/arp.rs`). -/
inductive HardwareAddressType where
  | Ethernet
  | Other (raw : Nat)
deriving DecidableEq

/-- `impl From<u16> for HardwareAddressType` (`src/arp.rs`). -/
def HardwareAddressType.ofRaw (raw : Nat) : HardwareAddressType :=
  match raw with
  | 0x0001 => .Ethernet
  | other => .Other other

/-- `ProtocolAddressType` (`src/arp.rs`). -/
inductive ProtocolAddressType where
  | IPv4
  | Other (raw : Nat)
deriving DecidableEq

/-- `impl From<u16> for ProtocolAddressType` (`src/arp.rs`). -/
def ProtocolAddressType.ofRaw (raw : Nat) : ProtocolAddressType :=
  match raw with
  | 0x0800 => .IPv4
  | other => .Other other

/-- ARP `Operation` (`src/arp.rs`). -/
inductive Operation where
  | Request
  | Reply
  | Other (raw : Nat)
deriving DecidableEq

/-- `impl From<u16> for Operation` (`src/arp.rs`). -/
def Operation.ofRaw (raw : Nat) : Operation :=
  match raw with
  | 0x0001 => .Request
  | 0x0002 => .Reply
  | other => .Other other

/-- `ArpPacket` record (`src/arp.rs`). -/
structure ArpPacket where
  hw_addr_type : HardwareAddressType
  proto_addr_type : ProtocolAddressType
  hw_addr_size : Nat
  proto_addr_size : Nat
  operation : Operation
  src_mac : MacAddress
  src_addr : Ipv4Addr
  dest_mac : MacAddress
  dest_addr : Ipv4Addr
deriving DecidableEq

/-- `parse_hw_addr_type` (`src/arp.rs`). -/
def parse_hw_addr_type : Decoder HardwareAddressType :=
  pbind be_u16 fun v => ppure (HardwareAddressType.ofRaw v)

/-- `parse_proto_addr_type` (`src/arp.rs`). -/
def parse_proto_addr_type : Decoder ProtocolAddressType :=
  pbind be_u16 fun v => ppure (ProtocolAddressType.ofRaw v)

/-- `parse_operation` (`src/arp.rs`). -/
def parse_operation : Decoder Operation :=
  pbind be_u16 fun v => ppure (Operation.ofRaw v)

/-- `parse_arp_pkt` (`src/arp.rs`): fixed 6-byte MAC / 4-byte IPv4 reads
regardless of the declared size fields. -/
def parse_arp_pkt : Decoder ArpPacket :=
  pbind parse_hw_addr_type fun hw_addr_type =>
  pbind parse_proto_addr_type fun proto_addr_type =>
  pbind be_u8 fun hw_addr_size =>
  pbind be_u8 fun proto_addr_size =>
  pbind parse_operation fun operation =>
  pbind mac_address fun src_mac =>
  pbind ipv4_address fun src_addr =>
  pbind mac_address fun dest_mac =>
  pbind ipv4_address fun dest_addr =>
  ppure ⟨hw_addr_type, proto_addr_type, hw_addr_size, proto_addr_size,
         operation, src_mac, src_addr, dest_mac, dest_addr⟩

/-! ## UDP (`src/udp.rs`) -/

/-- `UdpHeader` record (`src/udp.rs`). -/
structure UdpHeader where
  source_port : Nat
  dest_port : Nat
  length : Nat
  checksum : Nat
deriving DecidableEq

/-- `parse_udp_header` (`src/udp.rs`). -/
def parse_udp_header : Decoder UdpHeader :=
  pbind be_u16 fun source_port =>
  pbind be_u16 fun dest_port =>
  pbind be_u16 fun length =>
  pbind be_u16 fun checksum =>
  ppure ⟨source_port, dest_port, length, checksum⟩

/-! ## ICMP (`src/icmp.rs`) -/

/-- ICMP type 3 sub-reasons (`src/icmp.rs`). -/
inductive Unreachable where
  | DestinationNetworkUnreachable | DestinationHostUnreachable
  | DestinationProtocolUnreachable | DestinationPortUnreachable
  | FragmentationRequired | SourceRouteFailed | DestinationNetworkUnknown
  | DestinationHostUnknown | SourceHostIsolated
  | NetworkAdministrativelyProhibited | HostAdministrativelyProhibited
  | NetworkUnreachableForTos | HostUnreachableForTos
  | CommunicationAdministrativelyProhibited | HostPrecedenceViolation
  | PrecedentCutoffInEffect
deriving DecidableEq

/-- ICMP type 5 sub-reasons (`src/icmp.rs`). -/
inductive Redirect where
  | Network | Host | TosAndNetwork | TosAndHost
deriving DecidableEq

/-- ICMP type 11 sub-reasons (`src/icmp.rs`). -/
inductive TimeExceeded where
  | TTL | FragmentReassembly
deriving DecidableEq

/-- ICMP type 12 sub-reasons (`src/icmp.rs`). -/
inductive ParameterProblem where
  | Pointer | MissingRequiredOption | BadLength
deriving DecidableEq

/-- ICMP type 43 sub-reasons (`src/icmp.rs`). -/
inductive ExtendedEchoReply where
  | NoError | MalformedQuery | NoSuchInterface | NoSuchTableEntry
  | MupltipleInterfacesStatisfyQuery
deriving DecidableEq

/-- `IcmpCode` tagged union over (type, code) pairs (`src/icmp.rs`). -/
inductive IcmpCode where
  | EchoReply
  | Reserved
  | DestinationUnreachable (u : Unreachable)
  | SourceQuench
  | Redirect (r : Redirect)
  | EchoRequest
  | RouterAdvertisment
  | RouterSolicication
  | TimeExceeded (t : TimeExceeded)
  | ParameterProblem (p : ParameterProblem)
  | Timestamp
  | TimestampReply
  | ExtendedEchoRequest
  | ExtendedEchoReply (e : ExtendedEchoReply)
  | Other (raw : Nat)
deriving DecidableEq

/-- `impl From<u16> for IcmpCode` (`src/icmp.rs`): `raw.to_be_bytes()` gives
the type byte `raw / 256` and the code byte `raw % 256`. -/
def IcmpCode.ofRaw (raw : Nat) : IcmpCode :=
  match raw / 256 with
  | 0x00 => .EchoReply
  | 0x01 => .Reserved
  | 0x02 => .Reserved
  | 0x03 =>
    match raw % 256 with
    | 0x00 => .DestinationUnreachable .DestinationNetworkUnreachable
    | 0x01 => .DestinationUnreachable .DestinationHostUnreachable
    | 0x02 => .DestinationUnreachable .DestinationProtocolUnreachable
    | 0x03 => .DestinationUnreachable .DestinationPortUnreachable
    | 0x04 => .DestinationUnreachable .FragmentationRequired
    | 0x05 => .DestinationUnreachable .SourceRouteFailed
    | 0x06 => .DestinationUnreachable .DestinationNetworkUnknown
    | 0x07 => .DestinationUnreachable .DestinationHostUnknown
    | 0x08 => .DestinationUnreachable .SourceHostIsolated
    | 0x09 => .DestinationUnreachable .NetworkAdministrativelyProhibited
    | 0x0A => .DestinationUnreachable .HostAdministrativelyProhibited
    | 0x0B => .DestinationUnreachable .NetworkUnreachableForTos
    | 0x0C => .DestinationUnreachable .HostUnreachableForTos
    | 0x0D => .DestinationUnreachable .CommunicationAdministrativelyProhibited
    | 0x0E => .DestinationUnreachable .HostPrecedenceViolation
    | 0x0F => .DestinationUnreachable .PrecedentCutoffInEffect
    | _ => .Other raw
  | 0x04 =>
    match raw % 256 with
    | 0x00 => .SourceQuench
    | _ => .Other raw
  | 0x05 =>
    match raw % 256 with
    | 0x00 => .Redirect .Network
    | 0x01 => .Redirect .Host
    | 0x02 => .Redirect .TosAndNetwork
    | 0x03 => .Redirect .TosAndHost
    | _ => .Other raw
  | 0x07 => .Reserved
  | 0x08 => .EchoRequest
  | 0x09 => .RouterAdvertisment
  | 0x0A => .RouterSolicication
  | 0x0B =>
    match raw % 256 with
    | 0x00 => .TimeExceeded .TTL
    | 0x01 => .TimeExceeded .FragmentReassembly
    | _ => .Other raw
  | 0x0C =>
    match raw % 256 with
    | 0x00 => .ParameterProblem .Pointer
    | 0x01 => .ParameterProblem .MissingRequiredOption
    | 0x02 => .ParameterProblem .BadLength
    | _ => .Other raw
  | 0x0D => .Timestamp
  | 0x0E => .TimestampReply
  | 0x2A => .ExtendedEchoRequest
  | 0x2B =>
    match raw % 256 with
    | 0x00 => .ExtendedEchoReply .NoError
    | 0x01 => .ExtendedEchoReply .MalformedQuery
    | 0x02 => .ExtendedEchoReply .NoSuchInterface
    | 0x03 => .ExtendedEchoReply .NoSuchTableEntry
    | 0x04 => .ExtendedEchoReply .MupltipleInterfacesStatisfyQuery
    | _ => .Other raw
  | _ => .Other raw

/-- `parse_icmp_code` (`src/icmp.rs`). -/
def parse_icmp_code : Decoder IcmpCode :=
  pbind be_u16 fun code => ppure (IcmpCode.ofRaw code)

/-- `IcmpPayloadPacket` (`src/icmp.rs`): the 8 echoed payload bytes. -/
structure IcmpPayloadPacket where
  bytes : List Nat
deriving DecidableEq

/-- `IcmpData` tagged union (`src/icmp.rs`). -/
inductive IcmpData where
  | Unreachable (nexthop_mtu : Nat) (header : IPv4Header) (packet : IcmpPayloadPacket)
  | Redirect (gateway : Ipv4Addr) (header : IPv4Header) (packet : IcmpPayloadPacket)
  | TimeExceeded (header : IPv4Header) (packet : IcmpPayloadPacket)
  | None
deriving DecidableEq

/-- `parse_ipv4_header_and_packet` (`src/icmp.rs`): embedded IPv4 header
followed by exactly 8 echoed bytes. -/
def parse_ipv4_header_and_packet : Decoder (IPv4Header × IcmpPayloadPacket) :=
  pbind parse_ipv4_header fun header =>
  pbind (takeP 8) fun data =>
  ppure (header, ⟨data⟩)

/-- `parse_icmp_unreachable_data` (`src/icmp.rs`): skip 2 bytes, 16-bit
next-hop MTU, embedded header + echo. -/
def parse_icmp_unreachable_data : Decoder IcmpData :=
  pbind be_u16 fun _ =>
  pbind be_u16 fun nexthop_mtu =>
  pbind parse_ipv4_header_and_packet fun hp =>
  ppure (.Unreachable nexthop_mtu hp.1 hp.2)

/-- `parse_icmp_redirect_data` (`src/icmp.rs`): 4-byte gateway address,
embedded header + echo. -/
def parse_icmp_redirect_data : Decoder IcmpData :=
  pbind ipv4_address fun gateway =>
  pbind parse_ipv4_header_and_packet fun hp =>
  ppure (.Redirect gateway hp.1 hp.2)

/-- `parse_icmp_timeexceeded_data` (`src/icmp.rs`): skip 4 bytes, embedded
header + echo. -/
def parse_icmp_timeexceeded_data : Decoder IcmpData :=
  pbind be_u32 fun _ =>
  pbind parse_ipv4_header_and_packet fun hp =>
  ppure (.TimeExceeded hp.1 hp.2)

/-- The payload dispatch `match code { ... }` inside `parse_icmp_header`
(`src/icmp.rs`, lines 243-248), keyed on the decoded `IcmpCode`. -/
def icmp_data_for (code : IcmpCode) : Decoder IcmpData :=
  match code with
  | .DestinationUnreachable _ => parse_icmp_unreachable_data
  | .Redirect _ => parse_icmp_redirect_data
  | .TimeExceeded _ => parse_icmp_timeexceeded_data
  | _ => ppure .None

/-- `IcmpHeader` record (`src/icmp.rs`). -/
structure IcmpHeader where
  code : IcmpCode
  checksum : Nat
  data : IcmpData
deriving DecidableEq

/-- `parse_icmp_header` (`src/icmp.rs`). -/
def parse_icmp_header : Decoder IcmpHeader :=
  pbind parse_icmp_code fun code =>
  pbind be_u16 fun checksum =>
  pbind (icmp_data_for code) fun data =>
  ppure ⟨code, checksum, data⟩

/-! ## TCP (`src/tcp.rs`) -/

/-- `MaximumSegmentSize` record (`src/tcp.rs`). -/
structure MaximumSegmentSize where
  mss : Nat
deriving DecidableEq

/-- `WindowScale` record (`src/tcp.rs`). -/
structure WindowScale where
  scaling : Nat
deriving DecidableEq

/-- `TcpOption` tagged union (`src/tcp.rs`). -/
inductive TcpOption where
  | EndOfOptions
  | NoOperation
  | MaximumSegmentSize (m : MaximumSegmentSize)
  | WindowScale (w : WindowScale)
  | SackPermitted
deriving DecidableEq

/-- `TcpHeader` record (`src/tcp.rs`). -/
structure TcpHeader where
  source_port : Nat
  dest_port : Nat
  sequence_no : Nat
  ack_no : Nat
  data_offset : Nat
  reserved : Nat
  flag_urg : Bool
  flag_ack : Bool
  flag_psh : Bool
  flag_rst : Bool
  flag_syn : Bool
  flag_fin : Bool
  window : Nat
  checksum : Nat
  urgent_pointer : Nat
  options : Option (List TcpOption)
deriving DecidableEq

/-- `tcp_parse` (`src/tcp.rs`): the fixed 20-byte part, `options` left
`None`. -/
def tcp_parse : Decoder TcpHeader :=
  pbind be_u16 fun source_port =>
  pbind be_u16 fun dest_port =>
  pbind be_u32 fun sequence_no =>
  pbind be_u32 fun ack_no =>
  pbind dataof_res_flags fun dors =>
  pbind be_u16 fun window =>
  pbind be_u16 fun checksum =>
  pbind be_u16 fun urgent_pointer =>
  ppure { source_port := source_port, dest_port := dest_port,
          sequence_no := sequence_no, ack_no := ack_no,
          data_offset := dors.1, reserved := dors.2.1,
          flag_urg := dors.2.2 &&& 32 == 32,
          flag_ack := dors.2.2 &&& 16 == 16,
          flag_psh := dors.2.2 &&& 8 == 8,
          flag_rst := dors.2.2 &&& 4 == 4,
          flag_syn := dors.2.2 &&& 2 == 2,
          flag_fin := dors.2.2 &&& 1 == 1,
          window := window, checksum := checksum,
          urgent_pointer := urgent_pointer, options := none }

/-- `tcp_parse_option` (`src/tcp.rs`): one option; tag bytes outside
{0,1,2,3,4} are a hard `Err::Failure`. -/
def tcp_parse_option : Decoder TcpOption := fun i =>
  match be_u8 i with
  | .ok input tag =>
    match tag with
    | 0 => .ok input .EndOfOptions
    | 1 => .ok input .NoOperation
    | 2 =>
      (pbind be_u8 fun _len =>
       pbind be_u16 fun mss =>
       ppure (TcpOption.MaximumSegmentSize ⟨mss⟩)) input
    | 3 =>
      (pbind be_u8 fun _len =>
       pbind be_u8 fun scaling =>
       ppure (TcpOption.WindowScale ⟨scaling⟩)) input
    | 4 =>
      (pbind be_u8 fun _len =>
       ppure TcpOption.SackPermitted) input
    | _ => .failure
  | .incomplete n => .incomplete n
  | .error => .error
  | .failure => .failure

/-- Successful option decode always consumes at least one byte; this is the
explicit bound that makes the option-chain loop well-founded. -/
theorem tcp_parse_option_consumes {i l : List Nat} {opt : TcpOption}
    (h : tcp_parse_option i = .ok l opt) : l.length < i.length := by
  rcases i with _ | ⟨tag, t⟩
  · exact nomatch h
  · rcases tag with _ | _ | _ | _ | _ | tag
    · simp only [tcp_parse_option, be_u8, read1, id, PResult.ok.injEq] at h
      obtain ⟨h1, -⟩ := h
      subst h1
      simp only [List.length_cons]
      omega
    · simp only [tcp_parse_option, be_u8, read1, id, PResult.ok.injEq] at h
      obtain ⟨h1, -⟩ := h
      subst h1
      simp only [List.length_cons]
      omega
    · rcases t with _ | ⟨x, _ | ⟨y, _ | ⟨z, t3⟩⟩⟩ <;>
        simp only [tcp_parse_option, be_u8, be_u16, read1, read2, id, pbind, ppure,
          PResult.ok.injEq, reduceCtorEq] at h
      obtain ⟨h1, -⟩ := h
      subst h1
      simp only [List.length_cons]
      omega
    · rcases t with _ | ⟨x, _ | ⟨y, t2⟩⟩ <;>
        simp only [tcp_parse_option, be_u8, read1, id, pbind, ppure,
          PResult.ok.injEq, reduceCtorEq] at h
      obtain ⟨h1, -⟩ := h
      subst h1
      simp only [List.length_cons]
      omega
    · rcases t with _ | ⟨x, t1⟩ <;>
        simp only [tcp_parse_option, be_u8, read1, id, pbind, ppure,
          PResult.ok.injEq, reduceCtorEq] at h
      obtain ⟨h1, -⟩ := h
      subst h1
      simp only [List.length_cons]
      omega
    · simp only [tcp_parse_option, be_u8, read1, id, reduceCtorEq] at h

/-- `tcp_parse_options` (`src/tcp.rs`): the option-chain loop.  The loop
accumulates decoded options, stops after pushing `EndOfOptions`, and
propagates any error from `tcp_parse_option`; it terminates because every
successful `tcp_parse_option` consumes at least one byte
(`tcp_parse_option_consumes`), so the remaining slice shrinks. -/
def tcp_parse_options (i : List Nat) : PResult (List TcpOption) :=
  match h : tcp_parse_option i with
  | .ok l opt =>
    if opt = TcpOption.EndOfOptions then
      .ok l [opt]
    else
      match tcp_parse_options l with
      | .ok l2 opts => .ok l2 (opt :: opts)
      | .incomplete n => .incomplete n
      | .error => .error
      | .failure => .failure
  | .incomplete n => .incomplete n
  | .error => .error
  | .failure => .failure
termination_by i.length
decreasing_by exact tcp_parse_option_consumes h

/-- The `if let Ok((_, options)) = tcp_parse_options(..)` step of
`parse_tcp_header` (`src/tcp.rs`, lines 182-186): a successful chain decode
is stored as `Some(options)`; any chain error (`Failure` on an invalid tag,
or `Incomplete` from a span that runs out mid-option or without
`EndOfOptions`) is silently dropped and the header keeps `options = none`. -/
def tcp_update_options (hdr : TcpHeader) (res : PResult (List TcpOption)) : TcpHeader :=
  match res with
  | .ok _ options => { hdr with options := some options }
  | _ => hdr

/-- The option-span phase of `parse_tcp_header` (`src/tcp.rs`, lines
179-192): runs after the fixed part, on the remaining input `left`.  When
`data_offset > 5` it slices exactly `(data_offset - 5) * 4` bytes, reports
the shortfall if fewer remain, and otherwise decodes the chain on that
sub-slice only, returning the input after the span; both arms of the
source's `if let` return `Ok((&left[options_length..], tcp_header))`. -/
def tcp_options_phase (hdr : TcpHeader) : Decoder TcpHeader := fun left =>
  if 5 < hdr.data_offset then
    if (hdr.data_offset - 5) * 4 ≤ left.length then
      .ok (left.drop ((hdr.data_offset - 5) * 4))
        (tcp_update_options hdr (tcp_parse_options (left.take ((hdr.data_offset - 5) * 4))))
    else
      .incomplete ((hdr.data_offset - 5) * 4 - left.length)
  else
    .ok left hdr

/-- `parse_tcp_header` (`src/tcp.rs`). -/
def parse_tcp_header : Decoder TcpHeader := pbind tcp_parse tcp_options_phase

/-! ## The streaming-decoder theory

`Produces p c a` says decoder `p` consumes exactly the byte prefix `c`,
yields `a`, and never looks past `c`.  `Streaming p` packages the two facts
that make nom-style streaming decoding work on chunked input: every
successful run factors through a consumed prefix (`split`), and on any
proper prefix of a consumed prefix the decoder asks for more bytes rather
than failing or mis-decoding (`trunc`). -/

/-- Decoder `p` consumes exactly `c` producing `a`, for any continuation of
the buffer. -/
def Produces {α : Type} (p : Decoder α) (c : List Nat) (a : α) : Prop :=
  ∀ rest, p (c ++ rest) = .ok rest a

/-- The streaming contract of a decoder. -/
structure Streaming {α : Type} (p : Decoder α) : Prop where
  split : ∀ i r a, p i = .ok r a → ∃ c, i = c ++ r ∧ Produces p c a
  trunc : ∀ c a, Produces p c a → ∀ j, j < c.length → ∃ k, p (c.take j) = .incomplete k

theorem streaming_ppure {α : Type} (a : α) : Streaming (ppure a) := by
  constructor
  · intro i r b h
    simp only [ppure, PResult.ok.injEq] at h
    obtain ⟨h1, h2⟩ := h
    subst h1
    subst h2
    exact ⟨[], rfl, fun rest => rfl⟩
  · intro c b hP j hj
    have h0 := hP []
    simp only [ppure, List.append_nil, PResult.ok.injEq] at h0
    obtain ⟨h1, -⟩ := h0
    subst h1
    simp at hj

theorem streaming_pbind {α β : Type} {p : Decoder α} {f : α → Decoder β}
    (hp : Streaming p) (hf : ∀ a, Streaming (f a)) : Streaming (pbind p f) := by
  constructor
  · intro i r b h
    cases hpi : p i with
    | ok r1 a =>
      have h1 : f a r1 = .ok r b := by simpa only [pbind, hpi] using h
      obtain ⟨c1, hi, hP1⟩ := hp.split i r1 a hpi
      obtain ⟨c2, hr1, hP2⟩ := (hf a).split r1 r b h1
      refine ⟨c1 ++ c2, by rw [hi, hr1, List.append_assoc], ?_⟩
      intro rest
      simp only [pbind, List.append_assoc, hP1 (c2 ++ rest)]
      exact hP2 rest
    | incomplete n => simp [pbind, hpi] at h
    | error => simp [pbind, hpi] at h
    | failure => simp [pbind, hpi] at h
  · intro c b hP j hj
    have h0 := hP []
    rw [List.append_nil] at h0
    cases hpc : p c with
    | ok r1 a =>
      have h1 : f a r1 = .ok [] b := by simpa only [pbind, hpc] using h0
      obtain ⟨c1, hc, hP1⟩ := hp.split c r1 a hpc
      obtain ⟨c2, hr1, hP2⟩ := (hf a).split r1 [] b h1
      rw [List.append_nil] at hr1
      rw [hr1] at hc
      by_cases hjc : j < c1.length
      · obtain ⟨k, hk⟩ := hp.trunc c1 a hP1 j hjc
        refine ⟨k, ?_⟩
        have ht : c.take j = c1.take j := by
          rw [hc]
          exact List.take_append_of_le_length (Nat.le_of_lt hjc)
        rw [ht]
        simp only [pbind, hk]
      · push_neg at hjc
        have hj2 : j - c1.length < c2.length := by
          rw [hc, List.length_append] at hj
          omega
        obtain ⟨k, hk⟩ := (hf a).trunc c2 b hP2 (j - c1.length) hj2
        refine ⟨k, ?_⟩
        have ht : c.take j = c1 ++ c2.take (j - c1.length) := by
          rw [hc, List.take_append_eq_append_take, List.take_of_length_le hjc]
        rw [ht]
        simp only [pbind, hP1 (c2.take (j - c1.length)), hk]
    | incomplete n => simp [pbind, hpc] at h0
    | error => simp [pbind, hpc] at h0
    | failure => simp [pbind, hpc] at h0

theorem streaming_read1 {α : Type} (f : Nat → α) (need : Nat) :
    Streaming (read1 f need) := by
  constructor
  · intro i r a h
    rcases i with _ | ⟨b, t⟩
    · exact nomatch h
    · simp only [read1, PResult.ok.injEq] at h
      obtain ⟨h1, h2⟩ := h
      subst h1
      subst h2
      exact ⟨[b], rfl, fun rest => rfl⟩
  · intro c a hP j hj
    have h0 := hP []
    rw [List.append_nil] at h0
    rcases c with _ | ⟨b, t⟩
    · exact nomatch h0
    · simp only [read1, PResult.ok.injEq] at h0
      obtain ⟨h1, -⟩ := h0
      subst h1
      have hj0 : j = 0 := by simp at hj; omega
      subst hj0
      exact ⟨need, rfl⟩

theorem streaming_read2 {α : Type} (f : Nat → Nat → α) (miss : Nat → Nat) :
    Streaming (read2 f miss) := by
  constructor
  · intro i r a h
    rcases i with _ | ⟨b0, _ | ⟨b1, t⟩⟩
    · exact nomatch h
    · exact nomatch h
    · simp only [read2, PResult.ok.injEq] at h
      obtain ⟨h1, h2⟩ := h
      subst h1
      subst h2
      exact ⟨[b0, b1], rfl, fun rest => rfl⟩
  · intro c a hP j hj
    have h0 := hP []
    rw [List.append_nil] at h0
    rcases c with _ | ⟨b0, _ | ⟨b1, t⟩⟩
    · exact nomatch h0
    · exact nomatch h0
    · simp only [read2, PResult.ok.injEq] at h0
      obtain ⟨h1, -⟩ := h0
      subst h1
      have hj01 : j = 0 ∨ j = 1 := by simp at hj; omega
      rcases hj01 with h | h
      · subst h
        exact ⟨miss 0, rfl⟩
      · subst h
        exact ⟨miss 1, rfl⟩

theorem streaming_be_u8 : Streaming be_u8 := streaming_read1 id 1

theorem streaming_be_u16 : Streaming be_u16 :=
  streaming_read2 (fun b0 b1 => 256 * b0 + b1) (fun l => 2 - l)

theorem streaming_be_u32 : Streaming be_u32 := by
  constructor
  · intro i r a h
    rcases i with _ | ⟨b0, _ | ⟨b1, _ | ⟨b2, _ | ⟨b3, t⟩⟩⟩⟩
    · exact nomatch h
    · exact nomatch h
    · exact nomatch h
    · exact nomatch h
    · simp only [be_u32, PResult.ok.injEq] at h
      obtain ⟨h1, h2⟩ := h
      subst h1
      subst h2
      exact ⟨[b0, b1, b2, b3], rfl, fun rest => rfl⟩
  · intro c a hP j hj
    have h0 := hP []
    rw [List.append_nil] at h0
    rcases c with _ | ⟨b0, _ | ⟨b1, _ | ⟨b2, _ | ⟨b3, t⟩⟩⟩⟩
    · exact nomatch h0
    · exact nomatch h0
    · exact nomatch h0
    · exact nomatch h0
    · simp only [be_u32, PResult.ok.injEq] at h0
      obtain ⟨h1, -⟩ := h0
      subst h1
      have hj03 : j = 0 ∨ j = 1 ∨ j = 2 ∨ j = 3 := by simp at hj; omega
      rcases hj03 with h | h | h | h <;> subst h
      · exact ⟨4, rfl⟩
      · exact ⟨3, rfl⟩
      · exact ⟨2, rfl⟩
      · exact ⟨1, rfl⟩

theorem streaming_takeP (k : Nat) : Streaming (takeP k) := by
  constructor
  · intro i r a h
    by_cases hk : k ≤ i.length
    · simp only [takeP, if_pos hk, PResult.ok.injEq] at h
      obtain ⟨h1, h2⟩ := h
      subst h1
      subst h2
      refine ⟨i.take k, (List.take_append_drop k i).symm, ?_⟩
      intro rest
      have hlen : (i.take k).length = k := by
        rw [List.length_take]
        omega
      simp only [takeP]
      rw [if_pos (by rw [List.length_append, hlen]; omega),
        List.take_left' hlen, List.drop_left' hlen]
    · simp only [takeP, if_neg hk, reduceCtorEq] at h
  · intro c a hP j hj
    have h0 := hP []
    rw [List.append_nil] at h0
    by_cases hk : k ≤ c.length
    · simp only [takeP, if_pos hk, PResult.ok.injEq] at h0
      obtain ⟨h1, -⟩ := h0
      have hck : c.length ≤ k := List.drop_eq_nil_iff.mp h1
      have hlen : (c.take j).length = j := by
        rw [List.length_take]
        omega
      refine ⟨k - j, ?_⟩
      simp only [takeP, hlen]
      rw [if_neg (by omega)]
    · simp only [takeP, if_neg hk, reduceCtorEq] at h0

theorem streaming_pmap_opt {α β : Type} {p : Decoder α} {f : α → Option β}
    (hp : Streaming p) : Streaming (pmap_opt p f) := by
  have heq : pmap_opt p f
      = pbind p (fun a i => match f a with | some b => .ok i b | none => .error) := by
    funext i
    simp only [pmap_opt, pbind]
  rw [heq]
  refine streaming_pbind hp ?_
  intro a
  cases hfa : f a with
  | some b => exact streaming_ppure b
  | none =>
    constructor
    · intro i r a2 h
      exact nomatch h
    · intro c a2 hP j hj
      exact nomatch (hP [])

theorem streaming_two_nibbles : Streaming two_nibbles := streaming_read1 _ 1

theorem streaming_flag_frag_offset : Streaming flag_frag_offset := streaming_read2 _ _

theorem streaming_dataof_res_flags : Streaming dataof_res_flags := streaming_read2 _ _

theorem streaming_take16bits : Streaming take16bits := streaming_read2 _ _

theorem streaming_mac_address : Streaming mac_address :=
  streaming_pbind (streaming_takeP 6) fun _ => streaming_ppure _

theorem streaming_parse_ethertype : Streaming parse_ethertype :=
  streaming_pbind streaming_be_u16 fun _ => streaming_ppure _

theorem streaming_vid_ethertype : Streaming vid_ethertype :=
  streaming_pbind streaming_be_u16 fun _ =>
  streaming_pbind streaming_parse_ethertype fun _ => streaming_ppure _

theorem streaming_vlan_ethernet_frame : Streaming vlan_ethernet_frame :=
  streaming_pbind streaming_mac_address fun _ =>
  streaming_pbind streaming_mac_address fun _ =>
  streaming_pbind streaming_parse_ethertype fun _ => streaming_ppure _

theorem streaming_parse_ethernet_frame : Streaming parse_ethernet_frame :=
  streaming_pbind streaming_mac_address fun _ =>
  streaming_pbind streaming_mac_address fun _ =>
  streaming_pbind streaming_parse_ethertype fun _ => streaming_ppure _

theorem streaming_parse_vlan_ethernet_frame : Streaming parse_vlan_ethernet_frame := by
  unfold parse_vlan_ethernet_frame
  refine streaming_pbind streaming_vlan_ethernet_frame ?_
  intro frame
  by_cases hv : frame.ethertype = EtherType.VLAN
  · rw [if_pos hv]
    exact streaming_pbind streaming_vid_ethertype fun _ => streaming_ppure _
  · rw [if_neg hv]
    exact streaming_ppure _

theorem streaming_ipv4_protocol : Streaming ipv4_protocol :=
  streaming_pmap_opt streaming_be_u8

theorem streaming_ipv4_address : Streaming ipv4_address :=
  streaming_pbind (streaming_takeP 4) fun _ => streaming_ppure _

theorem streaming_ipparse : Streaming ipparse :=
  streaming_pbind streaming_two_nibbles fun _ =>
  streaming_pbind streaming_be_u8 fun _ =>
  streaming_pbind streaming_be_u16 fun _ =>
  streaming_pbind streaming_be_u16 fun _ =>
  streaming_pbind streaming_flag_frag_offset fun _ =>
  streaming_pbind streaming_be_u8 fun _ =>
  streaming_pbind streaming_ipv4_protocol fun _ =>
  streaming_pbind streaming_be_u16 fun _ =>
  streaming_pbind streaming_ipv4_address fun _ =>
  streaming_pbind streaming_ipv4_address fun _ => streaming_ppure _

theorem streaming_parse_ipv4_header : Streaming parse_ipv4_header := streaming_ipparse

theorem streaming_ip_protocol : Streaming ip_protocol :=
  streaming_pbind streaming_be_u8 fun _ => streaming_ppure _

theorem streaming_ipv6_address : Streaming ipv6_address :=
  streaming_pbind (streaming_takeP 16) fun _ => streaming_ppure _

theorem streaming_parse_ipv6_header : Streaming parse_ipv6_header :=
  streaming_pbind streaming_two_nibbles fun _ =>
  streaming_pbind streaming_two_nibbles fun _ =>
  streaming_pbind streaming_take16bits fun _ =>
  streaming_pbind streaming_be_u16 fun _ =>
  streaming_pbind streaming_ip_protocol fun _ =>
  streaming_pbind streaming_be_u8 fun _ =>
  streaming_pbind streaming_ipv6_address fun _ =>
  streaming_pbind streaming_ipv6_address fun _ => streaming_ppure _

theorem streaming_parse_hw_addr_type : Streaming parse_hw_addr_type :=
  streaming_pbind streaming_be_u16 fun _ => streaming_ppure _

theorem streaming_parse_proto_addr_type : Streaming parse_proto_addr_type :=
  streaming_pbind streaming_be_u16 fun _ => streaming_ppure _

theorem streaming_parse_operation : Streaming parse_operation :=
  streaming_pbind streaming_be_u16 fun _ => streaming_ppure _

theorem streaming_parse_arp_pkt : Streaming parse_arp_pkt :=
  streaming_pbind streaming_parse_hw_addr_type fun _ =>
  streaming_pbind streaming_parse_proto_addr_type fun _ =>
  streaming_pbind streaming_be_u8 fun _ =>
  streaming_pbind streaming_be_u8 fun _ =>
  streaming_pbind streaming_parse_operation fun _ =>
  streaming_pbind streaming_mac_address fun _ =>
  streaming_pbind streaming_ipv4_address fun _ =>
  streaming_pbind streaming_mac_address fun _ =>
  streaming_pbind streaming_ipv4_address fun _ => streaming_ppure _

theorem streaming_parse_udp_header : Streaming parse_udp_header :=
  streaming_pbind streaming_be_u16 fun _ =>
  streaming_pbind streaming_be_u16 fun _ =>
  streaming_pbind streaming_be_u16 fun _ =>
  streaming_pbind streaming_be_u16 fun _ => streaming_ppure _

theorem streaming_parse_icmp_code : Streaming parse_icmp_code :=
  streaming_pbind streaming_be_u16 fun _ => streaming_ppure _

theorem streaming_parse_ipv4_header_and_packet : Streaming parse_ipv4_header_and_packet :=
  streaming_pbind streaming_parse_ipv4_header fun _ =>
  streaming_pbind (streaming_takeP 8) fun _ => streaming_ppure _

theorem streaming_parse_icmp_unreachable_data : Streaming parse_icmp_unreachable_data :=
  streaming_pbind streaming_be_u16 fun _ =>
  streaming_pbind streaming_be_u16 fun _ =>
  streaming_pbind streaming_parse_ipv4_header_and_packet fun _ => streaming_ppure _

theorem streaming_parse_icmp_redirect_data : Streaming parse_icmp_redirect_data :=
  streaming_pbind streaming_ipv4_address fun _ =>
  streaming_pbind streaming_parse_ipv4_header_and_packet fun _ => streaming_ppure _

theorem streaming_parse_icmp_timeexceeded_data : Streaming parse_icmp_timeexceeded_data :=
  streaming_pbind streaming_be_u32 fun _ =>
  streaming_pbind streaming_parse_ipv4_header_and_packet fun _ => streaming_ppure _

theorem streaming_icmp_data_for (code : IcmpCode) : Streaming (icmp_data_for code) := by
  cases code <;>
    first
    | exact streaming_parse_icmp_unreachable_data
    | exact streaming_parse_icmp_redirect_data
    | exact streaming_parse_icmp_timeexceeded_data
    | exact streaming_ppure _

theorem streaming_parse_icmp_header : Streaming parse_icmp_header :=
  streaming_pbind streaming_parse_icmp_code fun code =>
  streaming_pbind streaming_be_u16 fun _ =>
  streaming_pbind (streaming_icmp_data_for code) fun _ => streaming_ppure _

theorem streaming_tcp_parse : Streaming tcp_parse :=
  streaming_pbind streaming_be_u16 fun _ =>
  streaming_pbind streaming_be_u16 fun _ =>
  streaming_pbind streaming_be_u32 fun _ =>
  streaming_pbind streaming_be_u32 fun _ =>
  streaming_pbind streaming_dataof_res_flags fun _ =>
  streaming_pbind streaming_be_u16 fun _ =>
  streaming_pbind streaming_be_u16 fun _ =>
  streaming_pbind streaming_be_u16 fun _ => streaming_ppure _

theorem streaming_tcp_options_phase (hdr : TcpHeader) : Streaming (tcp_options_phase hdr) := by
  constructor
  · intro i r a h
    by_cases hoff : 5 < hdr.data_offset
    · by_cases hlen : (hdr.data_offset - 5) * 4 ≤ i.length
      · simp only [tcp_options_phase, if_pos hoff, if_pos hlen, PResult.ok.injEq] at h
        obtain ⟨hr, ha⟩ := h
        subst hr
        subst ha
        have hlen2 : (i.take ((hdr.data_offset - 5) * 4)).length = (hdr.data_offset - 5) * 4 := by
          rw [List.length_take]
          omega
        refine ⟨i.take ((hdr.data_offset - 5) * 4), (List.take_append_drop _ i).symm, ?_⟩
        intro rest
        simp only [tcp_options_phase, if_pos hoff]
        rw [if_pos (by rw [List.length_append, hlen2]; omega)]
        rw [List.take_left' hlen2, List.drop_left' hlen2]
      · simp only [tcp_options_phase, if_pos hoff, if_neg hlen, reduceCtorEq] at h
    · simp only [tcp_options_phase, if_neg hoff, PResult.ok.injEq] at h
      obtain ⟨hr, ha⟩ := h
      subst hr
      subst ha
      refine ⟨[], rfl, ?_⟩
      intro rest
      simp only [tcp_options_phase, if_neg hoff, List.nil_append]
  · intro c a hP j hj
    have h0 := hP []
    rw [List.append_nil] at h0
    by_cases hoff : 5 < hdr.data_offset
    · by_cases hlen : (hdr.data_offset - 5) * 4 ≤ c.length
      · simp only [tcp_options_phase, if_pos hoff, if_pos hlen, PResult.ok.injEq] at h0
        obtain ⟨h1, -⟩ := h0
        have hck : c.length ≤ (hdr.data_offset - 5) * 4 := List.drop_eq_nil_iff.mp h1
        have hlen3 : (c.take j).length = j := by
          rw [List.length_take]
          omega
        refine ⟨(hdr.data_offset - 5) * 4 - j, ?_⟩
        simp only [tcp_options_phase, if_pos hoff, hlen3]
        rw [if_neg (by omega)]
      · simp only [tcp_options_phase, if_pos hoff, if_neg hlen, reduceCtorEq] at h0
    · simp only [tcp_options_phase, if_neg hoff, PResult.ok.injEq] at h0
      obtain ⟨h1, -⟩ := h0
      subst h1
      simp at hj

theorem streaming_parse_tcp_header : Streaming parse_tcp_header :=
  streaming_pbind streaming_tcp_parse streaming_tcp_options_phase

/-- The truncation consequence used by the insufficient-input claim: on a
proper prefix of the consumed bytes, a streaming decoder reports
`incomplete` — never `error`, `failure`, or a wrong success. -/
theorem streaming_trunc_all {α : Type} {p : Decoder α} (hp : Streaming p) :
    ∀ i r a, p i = .ok r a → ∀ j, j < i.length - r.length →
      ∃ k, p (i.take j) = .incomplete k := by
  intro i r a h j hj
  obtain ⟨c, hi, hP⟩ := hp.split i r a h
  have hjc : j < c.length := by
    rw [hi, List.length_append] at hj
    omega
  obtain ⟨k, hk⟩ := hp.trunc c a hP j hjc
  refine ⟨k, ?_⟩
  rw [hi, List.take_append_of_le_length (Nat.le_of_lt hjc)]
  exact hk

/-! ## Helper facts about the decoders -/

/-- The header value computed by `tcp_parse` from the 20 fixed bytes, spelled
out field by field (checked against `tcp_parse` by `tcp_parse_complete`). -/
def tcpFixedHeader (b0 b1 b2 b3 b4 b5 b6 b7 b8 b9 b10 b11 b12 b13 b14 b15 b16 b17 b18 b19 : Nat) :
    TcpHeader :=
  { source_port := 256 * b0 + b1, dest_port := 256 * b2 + b3,
    sequence_no := 16777216 * b4 + 65536 * b5 + 256 * b6 + b7,
    ack_no := 16777216 * b8 + 65536 * b9 + 256 * b10 + b11,
    data_offset := (256 * b12 + b13) / 4096,
    reserved := ((256 * b12 + b13) / 64) % 64,
    flag_urg := (256 * b12 + b13) % 64 &&& 32 == 32,
    flag_ack := (256 * b12 + b13) % 64 &&& 16 == 16,
    flag_psh := (256 * b12 + b13) % 64 &&& 8 == 8,
    flag_rst := (256 * b12 + b13) % 64 &&& 4 == 4,
    flag_syn := (256 * b12 + b13) % 64 &&& 2 == 2,
    flag_fin := (256 * b12 + b13) % 64 &&& 1 == 1,
    window := 256 * b14 + b15, checksum := 256 * b16 + b17,
    urgent_pointer := 256 * b18 + b19, options := none }

theorem tcp_parse_complete
    (b0 b1 b2 b3 b4 b5 b6 b7 b8 b9 b10 b11 b12 b13 b14 b15 b16 b17 b18 b19 : Nat)
    (rest : List Nat) :
    tcp_parse (b0::b1::b2::b3::b4::b5::b6::b7::b8::b9::b10::b11::b12::b13::b14::b15::b16::b17::b18::b19::rest)
      = .ok rest (tcpFixedHeader b0 b1 b2 b3 b4 b5 b6 b7 b8 b9 b10 b11 b12 b13 b14 b15 b16 b17 b18 b19) := rfl

theorem etherType_ofRaw_other {raw r : Nat} (h : EtherType.ofRaw raw = .Other r) :
    r = raw := by
  unfold EtherType.ofRaw at h
  split at h <;> simp_all

theorem etherType_ofRaw_vlan {raw : Nat} (h : EtherType.ofRaw raw = .VLAN) :
    raw = 0x8100 := by
  unfold EtherType.ofRaw at h
  split at h <;> simp_all

theorem ipProtocol_ofRaw_other {raw r : Nat} (h : IPProtocol.ofRaw raw = .Other r) :
    r = raw := by
  unfold IPProtocol.ofRaw at h
  split at h <;> simp_all

theorem icmpCode_ofRaw_other {raw r : Nat} (h : IcmpCode.ofRaw raw = .Other r) :
    r = raw := by
  unfold IcmpCode.ofRaw at h
  split at h <;> first
  | simp_all
  | (split at h <;> simp_all)

theorem hwAddrType_ofRaw_other {raw r : Nat} (h : HardwareAddressType.ofRaw raw = .Other r) :
    r = raw := by
  unfold HardwareAddressType.ofRaw at h
  split at h <;> simp_all

theorem protoAddrType_ofRaw_other {raw r : Nat} (h : ProtocolAddressType.ofRaw raw = .Other r) :
    r = raw := by
  unfold ProtocolAddressType.ofRaw at h
  split at h <;> simp_all

theorem operation_ofRaw_other {raw r : Nat} (h : Operation.ofRaw raw = .Other r) :
    r = raw := by
  unfold Operation.ofRaw at h
  split at h <;> simp_all

/-- The 20-byte IPv4 fixture from the test corpus
(`src/ipv4.rs`, `ipparse_gets_packet_correct`). -/
def ipv4Fixture : List Nat :=
  [0x45, 0x00, 0x05, 0xdc, 0x1a, 0xe6, 0x20, 0x00, 0x40, 0x01, 0x22, 0xed,
   0x0a, 0x0a, 0x01, 0x87, 0x0a, 0x0a, 0x01, 0xb4]

/-- The header the code actually decodes from `ipv4Fixture`. -/
def ipv4FixtureHeader : IPv4Header :=
  { version := 4, ihl := 20, tos := 0, length := 1500, id := 0x1ae6, flags := 1,
    fragment_offset := 0, ttl := 64, protocol := .ICMP, chksum := 0x22ed,
    source_addr := ⟨10, 10, 1, 135⟩, dest_addr := ⟨10, 10, 1, 180⟩ }

/-! ## Claim C1 -/

/-- C1 counterexample: `parse_ipv4_header` on the exact 20-byte fixture
succeeds with empty remainder, but decodes `ihl = 20` — the raw 4-bit word
count (5) shifted left by 2 in `ipparse` (`src/ipv4.rs`, `ihl: verihl.1 << 2`)
— not `ihl = 5` as the claim states; all other claimed fields match. -/
theorem c1_counterexample_ihl :
    parse_ipv4_header ipv4Fixture = .ok [] ipv4FixtureHeader
      ∧ ipv4FixtureHeader.ihl = 20 ∧ ¬ ipv4FixtureHeader.ihl = 5 := by
  refine ⟨rfl, rfl, by decide⟩

/-- C1 (amended): `parse_ipv4_header` applied to the exact 20-byte fixture
`45 00 05dc 1ae6 2000 40 01 22ed 0a0a0187 0a0a01b4` succeeds with an empty
remainder and decodes version=4, ihl=20 (the 4-bit word count 5 shifted left
by 2, i.e. the header length in bytes — matching the source's own test
expectation), tos=0, length=1500, id=0x1ae6, flags=1, fragment_offset=0,
ttl=64, protocol=ICMP, chksum=0x22ed, source 10.10.1.135, dest 10.10.1.180. -/
theorem c1_ipv4_fixture_decode :
    parse_ipv4_header ipv4Fixture = .ok [] ipv4FixtureHeader := rfl

/-! ## Claim C9 -/

/-- C9: every enumerated-code lookup (`EtherType` from u16, `IPProtocol` from
u8, `IcmpCode` from the u16 type+code pair, and ARP's hardware type, protocol
type and operation from u16) is total by construction (a Lean function), and
for every raw code each lookup either returns the catch-all `Other raw`
carrying exactly the original raw code, or a named (non-`Other`) variant —
so an unmapped code is never turned into a failure and never has its raw
value altered. -/
theorem c9_lookups_total_with_catch_all :
    (∀ raw : Nat, EtherType.ofRaw raw = .Other raw ∨ ∀ r, EtherType.ofRaw raw ≠ .Other r)
    ∧ (∀ raw : Nat, IPProtocol.ofRaw raw = .Other raw ∨ ∀ r, IPProtocol.ofRaw raw ≠ .Other r)
    ∧ (∀ raw : Nat, IcmpCode.ofRaw raw = .Other raw ∨ ∀ r, IcmpCode.ofRaw raw ≠ .Other r)
    ∧ (∀ raw : Nat, HardwareAddressType.ofRaw raw = .Other raw
        ∨ ∀ r, HardwareAddressType.ofRaw raw ≠ .Other r)
    ∧ (∀ raw : Nat, ProtocolAddressType.ofRaw raw = .Other raw
        ∨ ∀ r, ProtocolAddressType.ofRaw raw ≠ .Other r)
    ∧ (∀ raw : Nat, Operation.ofRaw raw = .Other raw ∨ ∀ r, Operation.ofRaw raw ≠ .Other r) := by
  refine ⟨fun raw => ?_, fun raw => ?_, fun raw => ?_, fun raw => ?_, fun raw => ?_, fun raw => ?_⟩
  · by_cases ho : ∃ r, EtherType.ofRaw raw = .Other r
    · obtain ⟨r, hr⟩ := ho
      exact Or.inl (by rw [hr, etherType_ofRaw_other hr])
    · exact Or.inr fun r hr => ho ⟨r, hr⟩
  · by_cases ho : ∃ r, IPProtocol.ofRaw raw = .Other r
    · obtain ⟨r, hr⟩ := ho
      exact Or.inl (by rw [hr, ipProtocol_ofRaw_other hr])
    · exact Or.inr fun r hr => ho ⟨r, hr⟩
  · by_cases ho : ∃ r, IcmpCode.ofRaw raw = .Other r
    · obtain ⟨r, hr⟩ := ho
      exact Or.inl (by rw [hr, icmpCode_ofRaw_other hr])
    · exact Or.inr fun r hr => ho ⟨r, hr⟩
  · by_cases ho : ∃ r, HardwareAddressType.ofRaw raw = .Other r
    · obtain ⟨r, hr⟩ := ho
      exact Or.inl (by rw [hr, hwAddrType_ofRaw_other hr])
    · exact Or.inr fun r hr => ho ⟨r, hr⟩
  · by_cases ho : ∃ r, ProtocolAddressType.ofRaw raw = .Other r
    · obtain ⟨r, hr⟩ := ho
      exact Or.inl (by rw [hr, protoAddrType_ofRaw_other hr])
    · exact Or.inr fun r hr => ho ⟨r, hr⟩
  · by_cases ho : ∃ r, Operation.ofRaw raw = .Other r
    · obtain ⟨r, hr⟩ := ho
      exact Or.inl (by rw [hr, operation_ofRaw_other hr])
    · exact Or.inr fun r hr => ho ⟨r, hr⟩

/-! ## Claim C8 -/

/-- C8: VLAN-aware Ethernet decoding.  For every 18-byte input
`dst(6) ++ src(6) ++ 0x8100 ++ vid(2) ++ inner_ethertype(2)` the decode
succeeds with `vid = some (raw big-endian u16 of the vid bytes)` and
`ethertype` the lookup of the inner ethertype; for every 14-byte input
`dst(6) ++ src(6) ++ ethertype(2)` whose ethertype field is not 0x8100 it
succeeds with `vid = none`; in both cases the MAC fields are byte-exact
copies of input bytes [0:6) and [6:12). -/
theorem c8_vlan_ethernet_roundtrip :
    (∀ d0 d1 d2 d3 d4 d5 s0 s1 s2 s3 s4 s5 v1 v2 e1 e2 : Nat,
      parse_vlan_ethernet_frame
        (d0::d1::d2::d3::d4::d5::s0::s1::s2::s3::s4::s5::0x81::0x00::v1::v2::e1::e2::[])
        = .ok [] ⟨⟨[s0,s1,s2,s3,s4,s5]⟩, ⟨[d0,d1,d2,d3,d4,d5]⟩,
                  EtherType.ofRaw (256 * e1 + e2), some (256 * v1 + v2)⟩)
    ∧ (∀ d0 d1 d2 d3 d4 d5 s0 s1 s2 s3 s4 s5 e1 e2 : Nat, 256 * e1 + e2 ≠ 0x8100 →
      parse_vlan_ethernet_frame
        (d0::d1::d2::d3::d4::d5::s0::s1::s2::s3::s4::s5::e1::e2::[])
        = .ok [] ⟨⟨[s0,s1,s2,s3,s4,s5]⟩, ⟨[d0,d1,d2,d3,d4,d5]⟩,
                  EtherType.ofRaw (256 * e1 + e2), none⟩) := by
  constructor
  · intro d0 d1 d2 d3 d4 d5 s0 s1 s2 s3 s4 s5 v1 v2 e1 e2
    rfl
  · intro d0 d1 d2 d3 d4 d5 s0 s1 s2 s3 s4 s5 e1 e2 hne
    have hv : EtherType.ofRaw (256 * e1 + e2) ≠ EtherType.VLAN := by
      intro h
      exact hne (etherType_ofRaw_vlan h)
    have h1 : vlan_ethernet_frame
        (d0::d1::d2::d3::d4::d5::s0::s1::s2::s3::s4::s5::e1::e2::[])
        = .ok [] ⟨⟨[s0,s1,s2,s3,s4,s5]⟩, ⟨[d0,d1,d2,d3,d4,d5]⟩,
                  EtherType.ofRaw (256 * e1 + e2), none⟩ := rfl
    simp only [parse_vlan_ethernet_frame, pbind, h1]
    rw [if_neg hv]
    rfl

/-- C8 witness: the second branch applied to the concrete untagged frame from
the source's own test (ethertype 0x0800). -/
theorem c8_vlan_ethernet_roundtrip_witness :
    parse_vlan_ethernet_frame
      [0x00, 0x23, 0x54, 0x07, 0x93, 0x6c, 0x00, 0x1b, 0x21, 0x0f, 0x91, 0x9b, 0x08, 0x00]
      = .ok [] ⟨⟨[0x00, 0x1b, 0x21, 0x0f, 0x91, 0x9b]⟩, ⟨[0x00, 0x23, 0x54, 0x07, 0x93, 0x6c]⟩,
                EtherType.ofRaw (256 * 0x08 + 0x00), none⟩ :=
  c8_vlan_ethernet_roundtrip.2 0x00 0x23 0x54 0x07 0x93 0x6c 0x00 0x1b 0x21 0x0f 0x91 0x9b
    0x08 0x00 (by decide)

/-! ## Claim C10 -/

/-- C10: for every input of at least 20 bytes whose decoded TCP data-offset
is at most 5 — including the sub-minimum values 0 through 4 —
`parse_tcp_header` succeeds, returns the fixed header with `options = none`,
and leaves everything after the first 20 bytes as the remainder: the
`data_offset ≥ 5` invariant is not validated by the decoder. -/
theorem c10_tcp_small_offset_unvalidated
    (b0 b1 b2 b3 b4 b5 b6 b7 b8 b9 b10 b11 b12 b13 b14 b15 b16 b17 b18 b19 : Nat)
    (rest : List Nat)
    (hoff : (tcpFixedHeader b0 b1 b2 b3 b4 b5 b6 b7 b8 b9 b10 b11 b12 b13 b14 b15 b16 b17 b18 b19).data_offset ≤ 5) :
    parse_tcp_header
      (b0::b1::b2::b3::b4::b5::b6::b7::b8::b9::b10::b11::b12::b13::b14::b15::b16::b17::b18::b19::rest)
      = .ok rest (tcpFixedHeader b0 b1 b2 b3 b4 b5 b6 b7 b8 b9 b10 b11 b12 b13 b14 b15 b16 b17 b18 b19)
    ∧ (tcpFixedHeader b0 b1 b2 b3 b4 b5 b6 b7 b8 b9 b10 b11 b12 b13 b14 b15 b16 b17 b18 b19).options
      = none := by
  constructor
  · have h1 := tcp_parse_complete b0 b1 b2 b3 b4 b5 b6 b7 b8 b9 b10 b11 b12 b13 b14 b15 b16 b17 b18 b19 rest
    simp only [parse_tcp_header, pbind, h1, tcp_options_phase,
      if_neg (by omega : ¬ 5 < (tcpFixedHeader b0 b1 b2 b3 b4 b5 b6 b7 b8 b9 b10 b11 b12 b13 b14 b15 b16 b17 b18 b19).data_offset)]
  · rfl

/-- C10 witness: a 20-byte all-zero input has data-offset nibble 0 (below
the mandatory minimum of 5) and still decodes successfully with
`options = none` and remainder `[7]`. -/
theorem c10_tcp_small_offset_unvalidated_witness :
    parse_tcp_header [0, 0, 0, 0, 0, 0, 0, 0, 0, 0, 0, 0, 0, 0, 0, 0, 0, 0, 0, 0, 7]
      = .ok [7] (tcpFixedHeader 0 0 0 0 0 0 0 0 0 0 0 0 0 0 0 0 0 0 0 0)
    ∧ (tcpFixedHeader 0 0 0 0 0 0 0 0 0 0 0 0 0 0 0 0 0 0 0 0).data_offset = 0 :=
  ⟨(c10_tcp_small_offset_unvalidated 0 0 0 0 0 0 0 0 0 0 0 0 0 0 0 0 0 0 0 0 [7] (by decide)).1,
   rfl⟩

/-! ## Claim C5 -/

/-- C5: when the decoded data-offset exceeds 5 but fewer than
`(data_offset - 5) * 4` bytes remain after the fixed 20 bytes,
`parse_tcp_header` reports the "need more bytes" outcome carrying exactly
the shortfall (required option bytes minus remaining bytes) — not a
malformed-input failure (`src/tcp.rs`, line 188). -/
theorem c5_tcp_options_shortfall
    (b0 b1 b2 b3 b4 b5 b6 b7 b8 b9 b10 b11 b12 b13 b14 b15 b16 b17 b18 b19 : Nat)
    (rest : List Nat)
    (hoff : 5 < (tcpFixedHeader b0 b1 b2 b3 b4 b5 b6 b7 b8 b9 b10 b11 b12 b13 b14 b15 b16 b17 b18 b19).data_offset)
    (hshort : rest.length < ((tcpFixedHeader b0 b1 b2 b3 b4 b5 b6 b7 b8 b9 b10 b11 b12 b13 b14 b15 b16 b17 b18 b19).data_offset - 5) * 4) :
    parse_tcp_header
      (b0::b1::b2::b3::b4::b5::b6::b7::b8::b9::b10::b11::b12::b13::b14::b15::b16::b17::b18::b19::rest)
      = .incomplete
          (((tcpFixedHeader b0 b1 b2 b3 b4 b5 b6 b7 b8 b9 b10 b11 b12 b13 b14 b15 b16 b17 b18 b19).data_offset - 5) * 4
            - rest.length) := by
  have h1 := tcp_parse_complete b0 b1 b2 b3 b4 b5 b6 b7 b8 b9 b10 b11 b12 b13 b14 b15 b16 b17 b18 b19 rest
  simp only [parse_tcp_header, pbind, h1, tcp_options_phase, if_pos hoff]
  rw [if_neg (by omega)]

/-- C5 witness: a 20-byte header with data-offset 6 and no trailing bytes
reports `incomplete 4` (the 4 missing option bytes). -/
theorem c5_tcp_options_shortfall_witness :
    parse_tcp_header
      [0xc2, 0x1f, 0x00, 0x50, 0x0f, 0xd8, 0x7f, 0x4c, 0xeb, 0x2f, 0x05, 0xc8,
       0x60, 0x18, 0x01, 0x00, 0x7c, 0x29, 0x00, 0x00]
      = .incomplete 4 :=
  c5_tcp_options_shortfall 0xc2 0x1f 0x00 0x50 0x0f 0xd8 0x7f 0x4c 0xeb 0x2f 0x05 0xc8
    0x60 0x18 0x01 0x00 0x7c 0x29 0x00 0x00 [] (by decide) (by decide)

/-! ## Further helper facts about the TCP option chain -/

/-- A successful single-option decode consumes a positive prefix: the
remainder is a strict suffix of the input. -/
theorem tcp_parse_option_split {i l : List Nat} {opt : TcpOption}
    (h : tcp_parse_option i = .ok l opt) :
    ∃ n, 0 < n ∧ n ≤ i.length ∧ l = i.drop n := by
  rcases i with _ | ⟨tag, t⟩
  · exact nomatch h
  · rcases tag with _ | _ | _ | _ | _ | tag
    · simp only [tcp_parse_option, be_u8, read1, id, PResult.ok.injEq] at h
      exact ⟨1, by omega, by simp, h.1.symm⟩
    · simp only [tcp_parse_option, be_u8, read1, id, PResult.ok.injEq] at h
      exact ⟨1, by omega, by simp, h.1.symm⟩
    · rcases t with _ | ⟨x, _ | ⟨y, _ | ⟨z, t3⟩⟩⟩ <;>
        simp only [tcp_parse_option, be_u8, be_u16, read1, read2, id, pbind, ppure,
          PResult.ok.injEq, reduceCtorEq] at h
      exact ⟨4, by omega, by simp only [List.length_cons]; omega, h.1.symm⟩
    · rcases t with _ | ⟨x, _ | ⟨y, t2⟩⟩ <;>
        simp only [tcp_parse_option, be_u8, read1, id, pbind, ppure,
          PResult.ok.injEq, reduceCtorEq] at h
      exact ⟨3, by omega, by simp only [List.length_cons]; omega, h.1.symm⟩
    · rcases t with _ | ⟨x, t1⟩ <;>
        simp only [tcp_parse_option, be_u8, read1, id, pbind, ppure,
          PResult.ok.injEq, reduceCtorEq] at h
      exact ⟨2, by omega, by simp only [List.length_cons]; omega, h.1.symm⟩
    · simp only [tcp_parse_option, be_u8, read1, id, reduceCtorEq] at h

/-- A successful option-chain decode never reads outside its input slice:
the remainder is a suffix of the span it was given. -/
theorem tcp_parse_options_suffix :
    ∀ span r opts, tcp_parse_options span = .ok r opts →
      ∃ n, n ≤ span.length ∧ r = span.drop n := by
  suffices H : ∀ m : Nat, ∀ span : List Nat, span.length ≤ m → ∀ r opts,
      tcp_parse_options span = .ok r opts → ∃ n, n ≤ span.length ∧ r = span.drop n by
    intro span r opts h
    exact H span.length span (Nat.le_refl _) r opts h
  intro m
  induction m with
  | zero =>
    intro span hle r opts h
    have hspan : span = [] := List.eq_nil_of_length_eq_zero (by omega)
    subst hspan
    rw [tcp_parse_options] at h
    exact nomatch h
  | succ m ih =>
    intro span hle r opts h
    cases hopt : tcp_parse_option span with
    | ok l opt =>
      have e : tcp_parse_options span
          = (if opt = TcpOption.EndOfOptions then .ok l [opt]
             else match tcp_parse_options l with
                  | .ok l2 opts2 => .ok l2 (opt :: opts2)
                  | .incomplete n => .incomplete n
                  | .error => .error
                  | .failure => .failure) := by
        rw [tcp_parse_options, hopt]
      rw [e] at h
      obtain ⟨n, hn0, hnle, hl⟩ := tcp_parse_option_split hopt
      have hllen : l.length = span.length - n := by rw [hl, List.length_drop]
      by_cases hend : opt = TcpOption.EndOfOptions
      · rw [if_pos hend] at h
        simp only [PResult.ok.injEq] at h
        obtain ⟨h1, -⟩ := h
        exact ⟨n, hnle, by rw [← h1, hl]⟩
      · rw [if_neg hend] at h
        cases hrec : tcp_parse_options l with
        | ok l2 opts2 =>
          rw [hrec] at h
          simp only [PResult.ok.injEq] at h
          obtain ⟨h1, -⟩ := h
          obtain ⟨n2, hn2le, hr⟩ := ih l (by omega) l2 opts2 hrec
          refine ⟨n + n2, by omega, ?_⟩
          rw [← h1, hr, hl, List.drop_drop, Nat.add_comm]
        | incomplete n3 => rw [hrec] at h; exact nomatch h
        | error => rw [hrec] at h; exact nomatch h
        | failure => rw [hrec] at h; exact nomatch h
    | incomplete n3 =>
      rw [tcp_parse_options, hopt] at h
      exact nomatch h
    | error =>
      rw [tcp_parse_options, hopt] at h
      exact nomatch h
    | failure =>
      rw [tcp_parse_options, hopt] at h
      exact nomatch h

/-- An option tag outside {0,1,2,3,4} at the head of the chain makes the
whole chain decode fail hard (`Err::Failure`, `src/tcp.rs` line 151). -/
theorem tcp_parse_options_bad_tag (tag : Nat) (rest2 : List Nat) (h5 : 5 ≤ tag) :
    tcp_parse_options (tag :: rest2) = .failure := by
  have hopt : tcp_parse_option (tag :: rest2) = .failure := by
    obtain ⟨k, rfl⟩ : ∃ k, tag = k + 5 := ⟨tag - 5, by omega⟩
    rfl
  rw [tcp_parse_options, hopt]

/-- `parse_tcp_header` on a fixed part with `data_offset > 5` followed by a
span of exactly `(data_offset - 5) * 4` bytes and arbitrary further bytes:
the result is success, the remainder is exactly the bytes after the span,
and the options field is computed from the span alone — the option-chain
decode never reads a byte outside the pre-computed span. -/
theorem parse_tcp_header_span
    (b0 b1 b2 b3 b4 b5 b6 b7 b8 b9 b10 b11 b12 b13 b14 b15 b16 b17 b18 b19 : Nat)
    (span rest : List Nat)
    (hoff : 5 < (tcpFixedHeader b0 b1 b2 b3 b4 b5 b6 b7 b8 b9 b10 b11 b12 b13 b14 b15 b16 b17 b18 b19).data_offset)
    (hspan : span.length = ((tcpFixedHeader b0 b1 b2 b3 b4 b5 b6 b7 b8 b9 b10 b11 b12 b13 b14 b15 b16 b17 b18 b19).data_offset - 5) * 4) :
    parse_tcp_header
      (b0::b1::b2::b3::b4::b5::b6::b7::b8::b9::b10::b11::b12::b13::b14::b15::b16::b17::b18::b19::(span ++ rest))
      = .ok rest
          (tcp_update_options
            (tcpFixedHeader b0 b1 b2 b3 b4 b5 b6 b7 b8 b9 b10 b11 b12 b13 b14 b15 b16 b17 b18 b19)
            (tcp_parse_options span)) := by
  have h1 := tcp_parse_complete b0 b1 b2 b3 b4 b5 b6 b7 b8 b9 b10 b11 b12 b13 b14 b15 b16 b17 b18 b19 (span ++ rest)
  simp only [parse_tcp_header, pbind, h1, tcp_options_phase, if_pos hoff]
  rw [if_pos (by rw [List.length_append]; omega)]
  rw [List.take_left' hspan, List.drop_left' hspan]

/-- Step lemma for evaluating the option chain on a `NoOperation` byte. -/
theorem tcp_parse_options_noop (rest2 : List Nat) :
    tcp_parse_options (1 :: rest2)
      = (match tcp_parse_options rest2 with
         | .ok l2 opts2 => .ok l2 (TcpOption.NoOperation :: opts2)
         | .incomplete n => .incomplete n
         | .error => .error
         | .failure => .failure) := by
  rw [tcp_parse_options, show tcp_parse_option (1 :: rest2) = .ok rest2 .NoOperation from rfl]
  rfl

/-- The empty span: the loop's next `be_u8` read reports `incomplete`. -/
theorem tcp_parse_options_nil : tcp_parse_options [] = .incomplete 1 := by
  rw [tcp_parse_options]
  rfl

/-- A span consisting only of `NoOperation` bytes: the loop consumes all
four bytes, then the next read reports `incomplete` — the loop terminates
at the end of the span instead of running forever. -/
theorem tcp_parse_options_all_noop : tcp_parse_options [1, 1, 1, 1] = .incomplete 1 := by
  rw [tcp_parse_options_noop, tcp_parse_options_noop, tcp_parse_options_noop,
    tcp_parse_options_noop, tcp_parse_options_nil]

/-! ## Claim C3 -/

/-- C3 counterexample: on the 24-byte input whose option span `[5,0,0,0]`
starts with the invalid tag 5, the chain decoder `tcp_parse_options` does
fail hard, but `parse_tcp_header` swallows that failure: it returns a
successful decode with the default `options = none` (the header produced by
the fixed part) instead of reporting the malformed input to the caller. -/
theorem c3_counterexample_failure_swallowed :
    tcp_parse_options [5, 0, 0, 0] = .failure
    ∧ parse_tcp_header
        [0xc2, 0x1f, 0x00, 0x50, 0x0f, 0xd8, 0x7f, 0x4c, 0xeb, 0x2f, 0x05, 0xc8,
         0x60, 0x18, 0x01, 0x00, 0x7c, 0x29, 0x00, 0x00, 5, 0, 0, 0]
      = .ok [] (tcpFixedHeader 0xc2 0x1f 0x00 0x50 0x0f 0xd8 0x7f 0x4c 0xeb 0x2f 0x05 0xc8
          0x60 0x18 0x01 0x00 0x7c 0x29 0x00 0x00)
    ∧ (tcpFixedHeader 0xc2 0x1f 0x00 0x50 0x0f 0xd8 0x7f 0x4c 0xeb 0x2f 0x05 0xc8
          0x60 0x18 0x01 0x00 0x7c 0x29 0x00 0x00).options = none := by
  have hfail : tcp_parse_options [5, 0, 0, 0] = .failure :=
    tcp_parse_options_bad_tag 5 [0, 0, 0] (by omega)
  refine ⟨hfail, ?_, rfl⟩
  have h := parse_tcp_header_span 0xc2 0x1f 0x00 0x50 0x0f 0xd8 0x7f 0x4c 0xeb 0x2f 0x05 0xc8
    0x60 0x18 0x01 0x00 0x7c 0x29 0x00 0x00 [5, 0, 0, 0] [] (by decide) (by decide)
  rw [hfail] at h
  exact h

/-- C3 (amended): an option tag outside {0,1,2,3,4} at an option boundary
makes the option-chain decoder `tcp_parse_options` fail with the hard
malformed-input failure, but `parse_tcp_header` does not propagate that
failure to its caller: whenever the chain decode of the option span fails,
`parse_tcp_header` silently swallows the error and returns a successful
decode whose header carries the substitute default `options = none`, with
the option span skipped. -/
theorem c3_invalid_tag_failure_swallowed :
    (∀ tag rest2, 5 ≤ tag → tcp_parse_options (tag :: rest2) = .failure)
    ∧ (∀ b0 b1 b2 b3 b4 b5 b6 b7 b8 b9 b10 b11 b12 b13 b14 b15 b16 b17 b18 b19 : Nat,
       ∀ span rest : List Nat,
        5 < (tcpFixedHeader b0 b1 b2 b3 b4 b5 b6 b7 b8 b9 b10 b11 b12 b13 b14 b15 b16 b17 b18 b19).data_offset →
        span.length = ((tcpFixedHeader b0 b1 b2 b3 b4 b5 b6 b7 b8 b9 b10 b11 b12 b13 b14 b15 b16 b17 b18 b19).data_offset - 5) * 4 →
        tcp_parse_options span = .failure →
        parse_tcp_header
          (b0::b1::b2::b3::b4::b5::b6::b7::b8::b9::b10::b11::b12::b13::b14::b15::b16::b17::b18::b19::(span ++ rest))
          = .ok rest (tcpFixedHeader b0 b1 b2 b3 b4 b5 b6 b7 b8 b9 b10 b11 b12 b13 b14 b15 b16 b17 b18 b19)
        ∧ (tcpFixedHeader b0 b1 b2 b3 b4 b5 b6 b7 b8 b9 b10 b11 b12 b13 b14 b15 b16 b17 b18 b19).options
          = none) := by
  refine ⟨tcp_parse_options_bad_tag, ?_⟩
  intro b0 b1 b2 b3 b4 b5 b6 b7 b8 b9 b10 b11 b12 b13 b14 b15 b16 b17 b18 b19 span rest
    hoff hspan hfail
  have h := parse_tcp_header_span b0 b1 b2 b3 b4 b5 b6 b7 b8 b9 b10 b11 b12 b13 b14 b15 b16 b17 b18 b19
    span rest hoff hspan
  rw [hfail] at h
  exact ⟨h, rfl⟩

/-- C3 witness: the amended statement applied to the concrete invalid-tag
input of the counterexample, with one trailing payload byte. -/
theorem c3_invalid_tag_failure_swallowed_witness :
    parse_tcp_header
      [0xc2, 0x1f, 0x00, 0x50, 0x0f, 0xd8, 0x7f, 0x4c, 0xeb, 0x2f, 0x05, 0xc8,
       0x60, 0x18, 0x01, 0x00, 0x7c, 0x29, 0x00, 0x00, 5, 0, 0, 0, 9]
      = .ok [9] (tcpFixedHeader 0xc2 0x1f 0x00 0x50 0x0f 0xd8 0x7f 0x4c 0xeb 0x2f 0x05 0xc8
          0x60 0x18 0x01 0x00 0x7c 0x29 0x00 0x00) :=
  (c3_invalid_tag_failure_swallowed.2 0xc2 0x1f 0x00 0x50 0x0f 0xd8 0x7f 0x4c 0xeb 0x2f 0x05 0xc8
    0x60 0x18 0x01 0x00 0x7c 0x29 0x00 0x00 [5, 0, 0, 0] [9] (by decide) (by decide)
    (c3_invalid_tag_failure_swallowed.1 5 [0, 0, 0] (by omega))).1

/-! ## Claim C4 -/

/-- C4: the TCP option-chain decode is bounded by the pre-computed option
span.  First conjunct: on a fixed part with `data_offset > 5`, a span of
exactly `(data_offset - 5) * 4` bytes and arbitrary bytes after it, the
result's options are a function of the span alone and the bytes after the
span come back untouched as the remainder — the loop never reads a byte
outside the span.  Second conjunct: a successful chain decode consumes only
bytes of its span (the remainder is a suffix of the span).  Third conjunct:
a span made entirely of `NoOperation` bytes — no `EndOfOptions` and no
invalid tag — still terminates: the loop exhausts the span, the trailing
`incomplete` from the empty slice ends it, and `parse_tcp_header` returns
(the chain error is swallowed, leaving `options = none`).  Termination of
the loop itself is witnessed by `tcp_parse_options` being well-founded on
the span length (each iteration consumes at least one byte,
`tcp_parse_option_split`). -/
theorem c4_tcp_option_loop_bounded :
    (∀ b0 b1 b2 b3 b4 b5 b6 b7 b8 b9 b10 b11 b12 b13 b14 b15 b16 b17 b18 b19 : Nat,
     ∀ span rest : List Nat,
      5 < (tcpFixedHeader b0 b1 b2 b3 b4 b5 b6 b7 b8 b9 b10 b11 b12 b13 b14 b15 b16 b17 b18 b19).data_offset →
      span.length = ((tcpFixedHeader b0 b1 b2 b3 b4 b5 b6 b7 b8 b9 b10 b11 b12 b13 b14 b15 b16 b17 b18 b19).data_offset - 5) * 4 →
      parse_tcp_header
        (b0::b1::b2::b3::b4::b5::b6::b7::b8::b9::b10::b11::b12::b13::b14::b15::b16::b17::b18::b19::(span ++ rest))
        = .ok rest
            (tcp_update_options
              (tcpFixedHeader b0 b1 b2 b3 b4 b5 b6 b7 b8 b9 b10 b11 b12 b13 b14 b15 b16 b17 b18 b19)
              (tcp_parse_options span)))
    ∧ (∀ span r opts, tcp_parse_options span = .ok r opts →
        ∃ n, n ≤ span.length ∧ r = span.drop n)
    ∧ parse_tcp_header
        [0xc2, 0x1f, 0x00, 0x50, 0x0f, 0xd8, 0x7f, 0x4c, 0xeb, 0x2f, 0x05, 0xc8,
         0x60, 0x18, 0x01, 0x00, 0x7c, 0x29, 0x00, 0x00, 1, 1, 1, 1]
        = .ok [] (tcpFixedHeader 0xc2 0x1f 0x00 0x50 0x0f 0xd8 0x7f 0x4c 0xeb 0x2f 0x05 0xc8
            0x60 0x18 0x01 0x00 0x7c 0x29 0x00 0x00) := by
  refine ⟨parse_tcp_header_span, tcp_parse_options_suffix, ?_⟩
  have h := parse_tcp_header_span 0xc2 0x1f 0x00 0x50 0x0f 0xd8 0x7f 0x4c 0xeb 0x2f 0x05 0xc8
    0x60 0x18 0x01 0x00 0x7c 0x29 0x00 0x00 [1, 1, 1, 1] [] (by decide) (by decide)
  rw [tcp_parse_options_all_noop] at h
  exact h

/-- C4 witness: the span-bounded statement applied to a concrete input with
data-offset 6, the option span `02 04 05 3a` (a single MSS option) and one
byte of payload after the span. -/
theorem c4_tcp_option_loop_bounded_witness :
    parse_tcp_header
      [0xc2, 0x1f, 0x00, 0x50, 0x0f, 0xd8, 0x7f, 0x4c, 0xeb, 0x2f, 0x05, 0xc8,
       0x60, 0x18, 0x01, 0x00, 0x7c, 0x29, 0x00, 0x00, 0x02, 0x04, 0x05, 0x3a, 0x47]
      = .ok [0x47]
          (tcp_update_options
            (tcpFixedHeader 0xc2 0x1f 0x00 0x50 0x0f 0xd8 0x7f 0x4c 0xeb 0x2f 0x05 0xc8
              0x60 0x18 0x01 0x00 0x7c 0x29 0x00 0x00)
            (tcp_parse_options [0x02, 0x04, 0x05, 0x3a])) :=
  c4_tcp_option_loop_bounded.1 0xc2 0x1f 0x00 0x50 0x0f 0xd8 0x7f 0x4c 0xeb 0x2f 0x05 0xc8
    0x60 0x18 0x01 0x00 0x7c 0x29 0x00 0x00 [0x02, 0x04, 0x05, 0x3a] [0x47]
    (by decide) (by decide)

/-! ## Claim C7 -/

/-- Disjoint-bit recombination: adding into the cleared low bits of a
shifted value is the same as bitwise or. -/
theorem shiftLeft_add_eq_or {x y n : Nat} (hy : y < 2 ^ n) :
    (x <<< n) + y = (x <<< n) ||| y := by
  rw [Nat.shiftLeft_eq, Nat.mul_comm x (2 ^ n)]
  exact Nat.mul_add_lt_is_or hy x

theorem ipv6_address_append {c : List Nat} (h : c.length = 16) (rest : List Nat) :
    ipv6_address (c ++ rest) = .ok rest ⟨c⟩ := by
  simp only [ipv6_address, pbind, takeP]
  rw [if_pos (by rw [List.length_append]; omega), List.take_left' h, List.drop_left' h]
  rfl

/-- The 40-byte IPv6 fixture from the test corpus
(`src/ipv6.rs`, `ipparse_gets_packet_correct`). -/
def ipv6Fixture : List Nat :=
  [0x60, 0x20, 0x01, 0xff, 0x05, 0x78, 0x3a, 0x05,
   0x20, 0x01, 0x0d, 0xb8, 0x5c, 0xf8, 0x1a, 0xa8,
   0x24, 0x81, 0x61, 0xe6, 0x5a, 0xc6, 0x03, 0xe0,
   0x20, 0x01, 0x0d, 0xb8, 0x78, 0x90, 0x2a, 0xe9,
   0x90, 0x8f, 0xa9, 0xf4, 0x2f, 0x4a, 0x9b, 0x80]

/-- The header the code decodes from `ipv6Fixture`: version=6, ds=0, ecn=2,
flow_label=511, length=1400, next_header=ICMP6, hop_limit=5. -/
def ipv6FixtureHeader : IPv6Header :=
  { version := 6, ds := 0, ecn := 2, flow_label := 511, length := 1400,
    next_header := .ICMP6, hop_limit := 5,
    source_addr := ⟨[0x20, 0x01, 0x0d, 0xb8, 0x5c, 0xf8, 0x1a, 0xa8,
                     0x24, 0x81, 0x61, 0xe6, 0x5a, 0xc6, 0x03, 0xe0]⟩,
    dest_addr := ⟨[0x20, 0x01, 0x0d, 0xb8, 0x78, 0x90, 0x2a, 0xe9,
                   0x90, 0x8f, 0xa9, 0xf4, 0x2f, 0x4a, 0x9b, 0x80]⟩ }

/-- C7: for every input of at least 40 bytes (8 leading bytes, a 16-byte
source, a 16-byte destination, and any rest), `parse_ipv6_header`
reconstructs the traffic class and flow label from the first four bytes
exactly as the claim's shift/mask formula states:
`ds = (low nibble of byte 0 << 2) | ((high nibble of byte 1 & 0b1100) >> 2)`,
`ecn = high nibble of byte 1 & 0b11`,
`flow_label = (low nibble of byte 1 << 16) | bytes 2-3 big-endian`; and the
fixture beginning `60 20 01 ff 05 78 3a 05` decodes to version=6, ds=0,
ecn=2, flow_label=511, length=1400, next_header=ICMP6, hop_limit=5. -/
theorem c7_ipv6_bit_reassembly :
    (∀ b0 b1 b2 b3 b4 b5 b6 b7 : Nat, ∀ src dst rest : List Nat,
      src.length = 16 → dst.length = 16 → b2 < 256 → b3 < 256 →
      parse_ipv6_header (b0::b1::b2::b3::b4::b5::b6::b7::(src ++ (dst ++ rest)))
        = .ok rest
            { version := b0 / 16,
              ds := ((b0 % 16) <<< 2) ||| (((b1 / 16) &&& 12) >>> 2),
              ecn := (b1 / 16) &&& 3,
              flow_label := ((b1 % 16) <<< 16) ||| (256 * b2 + b3),
              length := 256 * b4 + b5,
              next_header := IPProtocol.ofRaw b6,
              hop_limit := b7,
              source_addr := ⟨src⟩, dest_addr := ⟨dst⟩ })
    ∧ parse_ipv6_header ipv6Fixture = .ok [] ipv6FixtureHeader := by
  constructor
  · intro b0 b1 b2 b3 b4 b5 b6 b7 src dst rest hsrc hdst hb2 hb3
    have hy : ((b1 / 16) &&& 12) >>> 2 < 4 := by
      have hz : (b1 / 16) &&& 12 ≤ 12 := Nat.and_le_right
      rw [Nat.shiftRight_eq_div_pow]
      omega
    have hds := shiftLeft_add_eq_or (x := b0 % 16) (n := 2) hy
    have hfl := shiftLeft_add_eq_or (x := b1 % 16) (n := 16)
      (y := 256 * b2 + b3) (by omega)
    have hsP := ipv6_address_append hsrc (dst ++ rest)
    have hdP := ipv6_address_append hdst rest
    simp only [parse_ipv6_header, pbind, two_nibbles, take16bits, be_u16, be_u8,
      read1, read2, id, ip_protocol, ppure, hsP, hdP]
    rw [← hds, ← hfl]
  · rfl

/-- C7 witness: the bit-reassembly statement applied to the concrete fixture
bytes. -/
theorem c7_ipv6_bit_reassembly_witness :
    parse_ipv6_header ipv6Fixture
      = .ok []
          { version := 0x60 / 16,
            ds := ((0x60 % 16) <<< 2) ||| (((0x20 / 16) &&& 12) >>> 2),
            ecn := (0x20 / 16) &&& 3,
            flow_label := ((0x20 % 16) <<< 16) ||| (256 * 0x01 + 0xff),
            length := 256 * 0x05 + 0x78,
            next_header := IPProtocol.ofRaw 0x3a,
            hop_limit := 0x05,
            source_addr := ⟨[0x20, 0x01, 0x0d, 0xb8, 0x5c, 0xf8, 0x1a, 0xa8,
                             0x24, 0x81, 0x61, 0xe6, 0x5a, 0xc6, 0x03, 0xe0]⟩,
            dest_addr := ⟨[0x20, 0x01, 0x0d, 0xb8, 0x78, 0x90, 0x2a, 0xe9,
                           0x90, 0x8f, 0xa9, 0xf4, 0x2f, 0x4a, 0x9b, 0x80]⟩ } :=
  c7_ipv6_bit_reassembly.1 0x60 0x20 0x01 0xff 0x05 0x78 0x3a 0x05
    [0x20, 0x01, 0x0d, 0xb8, 0x5c, 0xf8, 0x1a, 0xa8,
     0x24, 0x81, 0x61, 0xe6, 0x5a, 0xc6, 0x03, 0xe0]
    [0x20, 0x01, 0x0d, 0xb8, 0x78, 0x90, 0x2a, 0xe9,
     0x90, 0x8f, 0xa9, 0xf4, 0x2f, 0x4a, 0x9b, 0x80]
    [] (by decide) (by decide) (by decide) (by decide)

/-! ## Claim C2 -/

/-- The ICMP destination-unreachable test input (`src/icmp.rs` tests):
type 3, code 1, checksum, 2 reserved bytes, next-hop MTU 7, the embedded
20-byte IPv4 header, 8 echoed bytes. -/
def icmpUnreachableFixture : List Nat :=
  [3, 1, 0xaa, 0xbb, 0x00, 0x00, 0x00, 0x07,
   0x45, 0x00, 0x05, 0xdc, 0x1a, 0xe6, 0x20, 0x00, 0x40, 0x01, 0x22, 0xed,
   0x0a, 0x0a, 0x01, 0x87, 0x0a, 0x0a, 0x01, 0xb4, 1, 2, 3, 4, 5, 6, 7, 8]

/-- The ICMP redirect test input (`src/icmp.rs` tests): type 5, code 1,
checksum, 4-byte gateway 10.10.1.134, embedded IPv4 header, 8 echoed
bytes. -/
def icmpRedirectFixture : List Nat :=
  [5, 1, 0xaa, 0xbb, 0x0a, 0x0a, 0x01, 0x86,
   0x45, 0x00, 0x05, 0xdc, 0x1a, 0xe6, 0x20, 0x00, 0x40, 0x01, 0x22, 0xed,
   0x0a, 0x0a, 0x01, 0x87, 0x0a, 0x0a, 0x01, 0xb4, 1, 2, 3, 4, 5, 6, 7, 8]

/-- The unreachable fixture with its code byte changed from 1 to 16 — a
(type, code) pair outside the `DestinationUnreachable` table. -/
def icmpBadCodeFixture : List Nat :=
  [3, 16, 0xaa, 0xbb, 0x00, 0x00, 0x00, 0x07,
   0x45, 0x00, 0x05, 0xdc, 0x1a, 0xe6, 0x20, 0x00, 0x40, 0x01, 0x22, 0xed,
   0x0a, 0x0a, 0x01, 0x87, 0x0a, 0x0a, 0x01, 0xb4, 1, 2, 3, 4, 5, 6, 7, 8]

/-- C2 counterexample: an input whose first (type) byte is 3 but whose code
byte is 16 does NOT take the Unreachable branch: the (3,16) pair maps to
`IcmpCode.Other 784` (784 = 3<<8 ||| 16), so `parse_icmp_header` decodes no
payload data (`IcmpData.None`) and returns the entire 32-byte tail — which
a well-formed Unreachable payload occupies fully — as the unconsumed
remainder.  The branch is keyed on the decoded `IcmpCode`, not on the type
byte alone. -/
theorem c2_counterexample_code16_not_unreachable :
    parse_icmp_header icmpBadCodeFixture
      = .ok
          [0x00, 0x00, 0x00, 0x07,
           0x45, 0x00, 0x05, 0xdc, 0x1a, 0xe6, 0x20, 0x00, 0x40, 0x01, 0x22, 0xed,
           0x0a, 0x0a, 0x01, 0x87, 0x0a, 0x0a, 0x01, 0xb4, 1, 2, 3, 4, 5, 6, 7, 8]
          ⟨.Other 784, 0xaabb, .None⟩ := rfl

/-- An out-of-table code byte under type 3 maps to the catch-all:
`(3, c)` with `16 ≤ c < 256` gives `IcmpCode.Other (3 << 8 ||| c)`. -/
theorem icmpCode_type3_high_other {c : Nat} (hlo : 16 ≤ c) (hhi : c < 256) :
    IcmpCode.ofRaw (256 * 3 + c) = .Other (256 * 3 + c) := by
  obtain ⟨k, rfl⟩ : ∃ k, c = k + 16 := ⟨c - 16, by omega⟩
  unfold IcmpCode.ofRaw
  rw [show (256 * 3 + (k + 16)) / 256 = 3 by omega,
    show (256 * 3 + (k + 16)) % 256 = k + 16 by omega]
  rfl

/-- An out-of-table code byte under type 5 maps to the catch-all. -/
theorem icmpCode_type5_high_other {c : Nat} (hlo : 4 ≤ c) (hhi : c < 256) :
    IcmpCode.ofRaw (256 * 5 + c) = .Other (256 * 5 + c) := by
  obtain ⟨k, rfl⟩ : ∃ k, c = k + 4 := ⟨c - 4, by omega⟩
  unfold IcmpCode.ofRaw
  rw [show (256 * 5 + (k + 4)) / 256 = 5 by omega,
    show (256 * 5 + (k + 4)) % 256 = k + 4 by omega]
  rfl

/-- An out-of-table code byte under type 11 maps to the catch-all. -/
theorem icmpCode_type11_high_other {c : Nat} (hlo : 2 ≤ c) (hhi : c < 256) :
    IcmpCode.ofRaw (256 * 11 + c) = .Other (256 * 11 + c) := by
  obtain ⟨k, rfl⟩ : ∃ k, c = k + 2 := ⟨c - 2, by omega⟩
  unfold IcmpCode.ofRaw
  rw [show (256 * 11 + (k + 2)) / 256 = 11 by omega,
    show (256 * 11 + (k + 2)) % 256 = k + 2 by omega]
  rfl

/-- C2 (amended): the ICMP payload dispatch branches on the decoded
`IcmpCode` variant, so the type byte alone decides the branch only for code
sub-values that the (type, code) table maps to that variant.  Positive
direction: every input whose first two bytes are (3, c) with c < 16 takes
the Unreachable branch (skip 2 reserved bytes, 16-bit next-hop MTU,
embedded IPv4 header, 8 echo bytes), every (5, c) with c < 4 the Redirect
branch (4-byte gateway, embedded header, echo), every (11, c) with c < 2
the TimeExceeded branch (skip 4 bytes, embedded header, echo).  Negative
direction, also universal: for these three types every other code byte
((3, 16 ≤ c < 256), (5, 4 ≤ c < 256), (11, 2 ≤ c < 256)) maps to
`IcmpCode.Other (type <<< 8 ||| code)` and decodes no payload — the header
carries `IcmpData.None` and the bytes after the checksum come back
unconsumed; and in full generality, any input whose decoded code is none of
`DestinationUnreachable`/`Redirect`/`TimeExceeded` decodes no payload.  In
particular type=3 code=1 yields
`DestinationUnreachable DestinationHostUnreachable` with `Unreachable` data
and type=5 code=1 yields `Redirect Host` with `Redirect` data carrying the
gateway address. -/
theorem c2_icmp_dispatch_on_decoded_code :
    (∀ c h1 h2 : Nat, ∀ rest : List Nat, c < 16 →
      parse_icmp_header (3 :: c :: h1 :: h2 :: rest)
        = pbind parse_icmp_unreachable_data
            (fun d => ppure ⟨IcmpCode.ofRaw (256 * 3 + c), 256 * h1 + h2, d⟩) rest)
    ∧ (∀ c h1 h2 : Nat, ∀ rest : List Nat, c < 4 →
      parse_icmp_header (5 :: c :: h1 :: h2 :: rest)
        = pbind parse_icmp_redirect_data
            (fun d => ppure ⟨IcmpCode.ofRaw (256 * 5 + c), 256 * h1 + h2, d⟩) rest)
    ∧ (∀ c h1 h2 : Nat, ∀ rest : List Nat, c < 2 →
      parse_icmp_header (11 :: c :: h1 :: h2 :: rest)
        = pbind parse_icmp_timeexceeded_data
            (fun d => ppure ⟨IcmpCode.ofRaw (256 * 11 + c), 256 * h1 + h2, d⟩) rest)
    ∧ (∀ c h1 h2 : Nat, ∀ rest : List Nat, 16 ≤ c → c < 256 →
      parse_icmp_header (3 :: c :: h1 :: h2 :: rest)
        = .ok rest ⟨.Other (256 * 3 + c), 256 * h1 + h2, IcmpData.None⟩)
    ∧ (∀ c h1 h2 : Nat, ∀ rest : List Nat, 4 ≤ c → c < 256 →
      parse_icmp_header (5 :: c :: h1 :: h2 :: rest)
        = .ok rest ⟨.Other (256 * 5 + c), 256 * h1 + h2, IcmpData.None⟩)
    ∧ (∀ c h1 h2 : Nat, ∀ rest : List Nat, 2 ≤ c → c < 256 →
      parse_icmp_header (11 :: c :: h1 :: h2 :: rest)
        = .ok rest ⟨.Other (256 * 11 + c), 256 * h1 + h2, IcmpData.None⟩)
    ∧ (∀ b0 b1 h1 h2 : Nat, ∀ rest : List Nat,
      (∀ u, IcmpCode.ofRaw (256 * b0 + b1) ≠ .DestinationUnreachable u) →
      (∀ r, IcmpCode.ofRaw (256 * b0 + b1) ≠ .Redirect r) →
      (∀ t, IcmpCode.ofRaw (256 * b0 + b1) ≠ .TimeExceeded t) →
      parse_icmp_header (b0 :: b1 :: h1 :: h2 :: rest)
        = .ok rest ⟨IcmpCode.ofRaw (256 * b0 + b1), 256 * h1 + h2, IcmpData.None⟩)
    ∧ parse_icmp_header icmpUnreachableFixture
        = .ok [] ⟨.DestinationUnreachable .DestinationHostUnreachable, 0xaabb,
                  .Unreachable 7 ipv4FixtureHeader ⟨[1, 2, 3, 4, 5, 6, 7, 8]⟩⟩
    ∧ parse_icmp_header icmpRedirectFixture
        = .ok [] ⟨.Redirect .Host, 0xaabb,
                  .Redirect ⟨10, 10, 1, 134⟩ ipv4FixtureHeader ⟨[1, 2, 3, 4, 5, 6, 7, 8]⟩⟩ := by
  refine ⟨?_, ?_, ?_, ?_, ?_, ?_, ?_, rfl, rfl⟩
  · intro c h1 h2 rest hc
    interval_cases c <;> rfl
  · intro c h1 h2 rest hc
    interval_cases c <;> rfl
  · intro c h1 h2 rest hc
    interval_cases c <;> rfl
  · intro c h1 h2 rest hlo hhi
    have hOther := icmpCode_type3_high_other hlo hhi
    simp only [parse_icmp_header, parse_icmp_code, pbind, be_u16, read2, ppure, hOther,
      icmp_data_for]
  · intro c h1 h2 rest hlo hhi
    have hOther := icmpCode_type5_high_other hlo hhi
    simp only [parse_icmp_header, parse_icmp_code, pbind, be_u16, read2, ppure, hOther,
      icmp_data_for]
  · intro c h1 h2 rest hlo hhi
    have hOther := icmpCode_type11_high_other hlo hhi
    simp only [parse_icmp_header, parse_icmp_code, pbind, be_u16, read2, ppure, hOther,
      icmp_data_for]
  · intro b0 b1 h1 h2 rest hU hR hT
    have hdata : icmp_data_for (IcmpCode.ofRaw (256 * b0 + b1)) = ppure IcmpData.None := by
      cases hc : IcmpCode.ofRaw (256 * b0 + b1) <;>
        first
        | rfl
        | exact absurd hc (hU _)
        | exact absurd hc (hR _)
        | exact absurd hc (hT _)
    simp only [parse_icmp_header, parse_icmp_code, pbind, be_u16, read2, ppure, hdata]

/-- C2 witness: the Unreachable-branch statement applied at type=3, code=1
with a concrete 4-byte tail. -/
theorem c2_icmp_dispatch_witness :
    parse_icmp_header (3 :: 1 :: 0xaa :: 0xbb :: [0x00, 0x00, 0x00, 0x07])
      = pbind parse_icmp_unreachable_data
          (fun d => ppure ⟨IcmpCode.ofRaw (256 * 3 + 1), 256 * 0xaa + 0xbb, d⟩)
          [0x00, 0x00, 0x00, 0x07] :=
  c2_icmp_dispatch_on_decoded_code.1 1 0xaa 0xbb [0x00, 0x00, 0x00, 0x07] (by decide)

/-! ## Claim C6 -/

/-- C6: for every input on which a decoder succeeds after consuming some
prefix (in particular, for every valid complete encoding of a header),
running the same decoder on any proper prefix of the consumed bytes yields
the "need more bytes" outcome — never a malformed-input failure and never a
successful decode; stated for all eight public decoders (Ethernet,
VLAN-aware Ethernet, ARP, IPv4, IPv6, ICMP, TCP, UDP). -/
theorem c6_truncation_needs_more_bytes :
    (∀ i r a, parse_ethernet_frame i = .ok r a →
      ∀ j, j < i.length - r.length → ∃ k, parse_ethernet_frame (i.take j) = .incomplete k)
    ∧ (∀ i r a, parse_vlan_ethernet_frame i = .ok r a →
      ∀ j, j < i.length - r.length → ∃ k, parse_vlan_ethernet_frame (i.take j) = .incomplete k)
    ∧ (∀ i r a, parse_arp_pkt i = .ok r a →
      ∀ j, j < i.length - r.length → ∃ k, parse_arp_pkt (i.take j) = .incomplete k)
    ∧ (∀ i r a, parse_ipv4_header i = .ok r a →
      ∀ j, j < i.length - r.length → ∃ k, parse_ipv4_header (i.take j) = .incomplete k)
    ∧ (∀ i r a, parse_ipv6_header i = .ok r a →
      ∀ j, j < i.length - r.length → ∃ k, parse_ipv6_header (i.take j) = .incomplete k)
    ∧ (∀ i r a, parse_icmp_header i = .ok r a →
      ∀ j, j < i.length - r.length → ∃ k, parse_icmp_header (i.take j) = .incomplete k)
    ∧ (∀ i r a, parse_tcp_header i = .ok r a →
      ∀ j, j < i.length - r.length → ∃ k, parse_tcp_header (i.take j) = .incomplete k)
    ∧ (∀ i r a, parse_udp_header i = .ok r a →
      ∀ j, j < i.length - r.length → ∃ k, parse_udp_header (i.take j) = .incomplete k) :=
  ⟨streaming_trunc_all streaming_parse_ethernet_frame,
   streaming_trunc_all streaming_parse_vlan_ethernet_frame,
   streaming_trunc_all streaming_parse_arp_pkt,
   streaming_trunc_all streaming_parse_ipv4_header,
   streaming_trunc_all streaming_parse_ipv6_header,
   streaming_trunc_all streaming_parse_icmp_header,
   streaming_trunc_all streaming_parse_tcp_header,
   streaming_trunc_all streaming_parse_udp_header⟩

/-- C6 witness: the UDP conjunct applied to the 8-byte UDP test vector
truncated to 5 bytes. -/
theorem c6_truncation_needs_more_bytes_witness :
    ∃ k, parse_udp_header ([0x00, 0x12, 0x11, 0x11, 0x00, 0x1b, 0x21, 0x0f].take 5)
      = .incomplete k :=
  c6_truncation_needs_more_bytes.2.2.2.2.2.2.2
    [0x00, 0x12, 0x11, 0x11, 0x00, 0x1b, 0x21, 0x0f] [] ⟨0x12, 0x1111, 0x1b, 0x210f⟩
    (by decide) 5 (by decide)

end PktSpec
